import Mathlib

/-!
Verification development for a Game Boy (DMG) emulator core.

The definitions below are a shallow embedding of the emulator's C++
sources (`instructions.cpp`, `cpu.cpp`, `cpu_instructions.cpp`,
`cpu_registers.cpp`, `memory.cpp`, `timer.cpp`, `cartridge.cpp`,
`gpu.cpp`).  Machine integers are modelled as `Nat` with explicit
masking (`% 256`, `% 65536`, `&&& 0xFF`, ...) wherever the C++ code
truncates on assignment; the 64-bit cycle counter is modelled as a
plain `Nat` (it cannot overflow in a realizable execution).  Mutation
is modelled by explicit state passing.  Debug `std::cout` output and
the debug-only counters (`vram_write_counter`, `write_counter`,
`debug_instruction_count` is kept since it is CPU state) have no
observable effect on the modelled state and are omitted where noted.
-/

set_option maxRecDepth 8192

namespace GB

/-- `Instructions::Type` from `instructions.hpp` (renamed `Ty`, since
`Type` is reserved in Lean). -/
inductive Ty where
  | NONE | NOP | LD | INC | DEC
  | RLCA | ADD | RRCA | STOP
  | RLA | JR | RRA | DAA
  | CPL | SCF | CCF | HALT
  | ADC | SUB | SBC | AND
  | XOR | OR | CP | POP
  | JP | PUSH | RET | CB
  | CALL | RETI | LDH
  | DI | EI | RST | ERR
  | RLC | RRC | RL | RR
  | SLA | SRA | SWAP | SRL
  | BIT | RES | SET
  deriving DecidableEq, Repr

/-- `Instructions::AddrMode` from `instructions.hpp`. -/
inductive AddrMode where
  | IMP | R_D16 | R_R | MR_R | R | R_D8 | R_MR
  | R_HLI | R_HLD | HLI_R | HLD_R
  | R_A8 | A8_R | HL_SPR
  | D16 | D8 | D16_R | MR_D8 | MR
  | A16_R | R_A16 | CC_D16 | CC_D8 | CC
  deriving DecidableEq, Repr

/-- `Instructions::RegType` from `instructions.hpp`. -/
inductive RegType where
  | NONE
  | A | F | B | C | D | E | H | L
  | AF | BC | DE | HL
  | SP | PC
  | CC_NZ | CC_Z | CC_NC | CC_C
  deriving DecidableEq, Repr

/-- `Instructions::CondType` from `instructions.hpp`. -/
inductive CondType where
  | NONE | NZ | Z | NC | C
  deriving DecidableEq, Repr

/-- `Instructions::Instruction`.  The `.cpp` initializers pass two
trailing cycle arguments (base and, for conditional instructions, an
alternative count); they are fields here, `alt_cycles` defaulting to 0
exactly as the initializer lists omit it for unconditional entries. -/
structure Instruction where
  ty : Ty
  addr_mode : AddrMode
  reg1 : RegType
  reg2 : RegType
  cond : CondType
  param : Nat
  cycles : Nat
  alt_cycles : Nat := 0
  deriving DecidableEq, Repr

instance : Inhabited Instruction := ⟨⟨.NONE, .IMP, .NONE, .NONE, .NONE, 0, 0, 0⟩⟩

namespace Instructions

/-- Opcodes 0x00 - 0x0F. -/
def instructions_row0 : List Instruction :=
  [
    ⟨.NOP, .IMP, .NONE, .NONE, .NONE, 0, 4, 0⟩,  -- 0x00
    ⟨.LD, .R_D16, .BC, .NONE, .NONE, 0, 12, 0⟩,  -- 0x01
    ⟨.LD, .MR_R, .BC, .A, .NONE, 0, 8, 0⟩,  -- 0x02
    ⟨.INC, .R, .BC, .NONE, .NONE, 0, 8, 0⟩,  -- 0x03
    ⟨.INC, .R, .B, .NONE, .NONE, 0, 4, 0⟩,  -- 0x04
    ⟨.DEC, .R, .B, .NONE, .NONE, 0, 4, 0⟩,  -- 0x05
    ⟨.LD, .R_D8, .B, .NONE, .NONE, 0, 8, 0⟩,  -- 0x06
    ⟨.RLCA, .IMP, .NONE, .NONE, .NONE, 0, 4, 0⟩,  -- 0x07
    ⟨.LD, .D16_R, .NONE, .SP, .NONE, 0, 20, 0⟩,  -- 0x08
    ⟨.ADD, .R_R, .HL, .BC, .NONE, 0, 8, 0⟩,  -- 0x09
    ⟨.LD, .R_MR, .A, .BC, .NONE, 0, 8, 0⟩,  -- 0x0A
    ⟨.DEC, .R, .BC, .NONE, .NONE, 0, 8, 0⟩,  -- 0x0B
    ⟨.INC, .R, .C, .NONE, .NONE, 0, 4, 0⟩,  -- 0x0C
    ⟨.DEC, .R, .C, .NONE, .NONE, 0, 4, 0⟩,  -- 0x0D
    ⟨.LD, .R_D8, .C, .NONE, .NONE, 0, 8, 0⟩,  -- 0x0E
    ⟨.RRCA, .IMP, .NONE, .NONE, .NONE, 0, 4, 0⟩,  -- 0x0F
  ]

/-- Opcodes 0x10 - 0x1F. -/
def instructions_row1 : List Instruction :=
  [
    ⟨.STOP, .IMP, .NONE, .NONE, .NONE, 0, 4, 0⟩,  -- 0x10
    ⟨.LD, .R_D16, .DE, .NONE, .NONE, 0, 12, 0⟩,  -- 0x11
    ⟨.LD, .MR_R, .DE, .A, .NONE, 0, 8, 0⟩,  -- 0x12
    ⟨.INC, .R, .DE, .NONE, .NONE, 0, 8, 0⟩,  -- 0x13
    ⟨.INC, .R, .D, .NONE, .NONE, 0, 4, 0⟩,  -- 0x14
    ⟨.DEC, .R, .D, .NONE, .NONE, 0, 4, 0⟩,  -- 0x15
    ⟨.LD, .R_D8, .D, .NONE, .NONE, 0, 8, 0⟩,  -- 0x16
    ⟨.RLA, .IMP, .NONE, .NONE, .NONE, 0, 4, 0⟩,  -- 0x17
    ⟨.JR, .D8, .NONE, .NONE, .NONE, 0, 12, 0⟩,  -- 0x18
    ⟨.ADD, .R_R, .HL, .DE, .NONE, 0, 8, 0⟩,  -- 0x19
    ⟨.LD, .R_MR, .A, .DE, .NONE, 0, 8, 0⟩,  -- 0x1A
    ⟨.DEC, .R, .DE, .NONE, .NONE, 0, 8, 0⟩,  -- 0x1B
    ⟨.INC, .R, .E, .NONE, .NONE, 0, 4, 0⟩,  -- 0x1C
    ⟨.DEC, .R, .E, .NONE, .NONE, 0, 4, 0⟩,  -- 0x1D
    ⟨.LD, .R_D8, .E, .NONE, .NONE, 0, 8, 0⟩,  -- 0x1E
    ⟨.RRA, .IMP, .NONE, .NONE, .NONE, 0, 4, 0⟩,  -- 0x1F
  ]

/-- Opcodes 0x20 - 0x2F. -/
def instructions_row2 : List Instruction :=
  [
    ⟨.JR, .CC_D8, .CC_NZ, .NONE, .NZ, 0, 12, 8⟩,  -- 0x20
    ⟨.LD, .R_D16, .HL, .NONE, .NONE, 0, 12, 0⟩,  -- 0x21
    ⟨.LD, .R_HLI, .HL, .A, .NONE, 0, 8, 0⟩,  -- 0x22
    ⟨.INC, .R, .HL, .NONE, .NONE, 0, 8, 0⟩,  -- 0x23
    ⟨.INC, .R, .H, .NONE, .NONE, 0, 4, 0⟩,  -- 0x24
    ⟨.DEC, .R, .H, .NONE, .NONE, 0, 4, 0⟩,  -- 0x25
    ⟨.LD, .R_D8, .H, .NONE, .NONE, 0, 8, 0⟩,  -- 0x26
    ⟨.DAA, .IMP, .NONE, .NONE, .NONE, 0, 4, 0⟩,  -- 0x27
    ⟨.JR, .CC_D8, .CC_Z, .NONE, .Z, 0, 12, 8⟩,  -- 0x28
    ⟨.ADD, .R_R, .HL, .HL, .NONE, 0, 8, 0⟩,  -- 0x29
    ⟨.LD, .HLI_R, .A, .HL, .NONE, 0, 8, 0⟩,  -- 0x2A
    ⟨.DEC, .R, .HL, .NONE, .NONE, 0, 8, 0⟩,  -- 0x2B
    ⟨.INC, .R, .L, .NONE, .NONE, 0, 4, 0⟩,  -- 0x2C
    ⟨.DEC, .R, .L, .NONE, .NONE, 0, 4, 0⟩,  -- 0x2D
    ⟨.LD, .R_D8, .L, .NONE, .NONE, 0, 8, 0⟩,  -- 0x2E
    ⟨.CPL, .IMP, .NONE, .NONE, .NONE, 0, 4, 0⟩,  -- 0x2F
  ]

/-- Opcodes 0x30 - 0x3F. -/
def instructions_row3 : List Instruction :=
  [
    ⟨.JR, .CC_D8, .CC_NC, .NONE, .NC, 0, 12, 8⟩,  -- 0x30
    ⟨.LD, .R_D16, .SP, .NONE, .NONE, 0, 12, 0⟩,  -- 0x31
    ⟨.LD, .R_HLD, .HL, .A, .NONE, 0, 8, 0⟩,  -- 0x32
    ⟨.INC, .R, .SP, .NONE, .NONE, 0, 8, 0⟩,  -- 0x33
    ⟨.INC, .MR, .HL, .NONE, .NONE, 0, 12, 0⟩,  -- 0x34
    ⟨.DEC, .MR, .HL, .NONE, .NONE, 0, 12, 0⟩,  -- 0x35
    ⟨.LD, .MR_D8, .HL, .NONE, .NONE, 0, 12, 0⟩,  -- 0x36
    ⟨.SCF, .IMP, .NONE, .NONE, .NONE, 0, 4, 0⟩,  -- 0x37
    ⟨.JR, .CC_D8, .CC_C, .NONE, .C, 0, 12, 8⟩,  -- 0x38
    ⟨.ADD, .R_R, .HL, .SP, .NONE, 0, 8, 0⟩,  -- 0x39
    ⟨.LD, .HLD_R, .A, .HL, .NONE, 0, 8, 0⟩,  -- 0x3A
    ⟨.DEC, .R, .SP, .NONE, .NONE, 0, 8, 0⟩,  -- 0x3B
    ⟨.INC, .R, .A, .NONE, .NONE, 0, 4, 0⟩,  -- 0x3C
    ⟨.DEC, .R, .A, .NONE, .NONE, 0, 4, 0⟩,  -- 0x3D
    ⟨.LD, .R_D8, .A, .NONE, .NONE, 0, 8, 0⟩,  -- 0x3E
    ⟨.CCF, .IMP, .NONE, .NONE, .NONE, 0, 4, 0⟩,  -- 0x3F
  ]

/-- Opcodes 0x40 - 0x4F. -/
def instructions_row4 : List Instruction :=
  [
    ⟨.LD, .R_R, .B, .B, .NONE, 0, 4, 0⟩,  -- 0x40
    ⟨.LD, .R_R, .B, .C, .NONE, 0, 4, 0⟩,  -- 0x41
    ⟨.LD, .R_R, .B, .D, .NONE, 0, 4, 0⟩,  -- 0x42
    ⟨.LD, .R_R, .B, .E, .NONE, 0, 4, 0⟩,  -- 0x43
    ⟨.LD, .R_R, .B, .H, .NONE, 0, 4, 0⟩,  -- 0x44
    ⟨.LD, .R_R, .B, .L, .NONE, 0, 4, 0⟩,  -- 0x45
    ⟨.LD, .R_MR, .B, .HL, .NONE, 0, 8, 0⟩,  -- 0x46
    ⟨.LD, .R_R, .B, .A, .NONE, 0, 4, 0⟩,  -- 0x47
    ⟨.LD, .R_R, .C, .B, .NONE, 0, 4, 0⟩,  -- 0x48
    ⟨.LD, .R_R, .C, .C, .NONE, 0, 4, 0⟩,  -- 0x49
    ⟨.LD, .R_R, .C, .D, .NONE, 0, 4, 0⟩,  -- 0x4A
    ⟨.LD, .R_R, .C, .E, .NONE, 0, 4, 0⟩,  -- 0x4B
    ⟨.LD, .R_R, .C, .H, .NONE, 0, 4, 0⟩,  -- 0x4C
    ⟨.LD, .R_R, .C, .L, .NONE, 0, 4, 0⟩,  -- 0x4D
    ⟨.LD, .R_MR, .C, .HL, .NONE, 0, 8, 0⟩,  -- 0x4E
    ⟨.LD, .R_R, .C, .A, .NONE, 0, 4, 0⟩,  -- 0x4F
  ]

/-- Opcodes 0x50 - 0x5F. -/
def instructions_row5 : List Instruction :=
  [
    ⟨.LD, .R_R, .D, .B, .NONE, 0, 4, 0⟩,  -- 0x50
    ⟨.LD, .R_R, .D, .C, .NONE, 0, 4, 0⟩,  -- 0x51
    ⟨.LD, .R_R, .D, .D, .NONE, 0, 4, 0⟩,  -- 0x52
    ⟨.LD, .R_R, .D, .E, .NONE, 0, 4, 0⟩,  -- 0x53
    ⟨.LD, .R_R, .D, .H, .NONE, 0, 4, 0⟩,  -- 0x54
    ⟨.LD, .R_R, .D, .L, .NONE, 0, 4, 0⟩,  -- 0x55
    ⟨.LD, .R_MR, .D, .HL, .NONE, 0, 8, 0⟩,  -- 0x56
    ⟨.LD, .R_R, .D, .A, .NONE, 0, 4, 0⟩,  -- 0x57
    ⟨.LD, .R_R, .E, .B, .NONE, 0, 4, 0⟩,  -- 0x58
    ⟨.LD, .R_R, .E, .C, .NONE, 0, 4, 0⟩,  -- 0x59
    ⟨.LD, .R_R, .E, .D, .NONE, 0, 4, 0⟩,  -- 0x5A
    ⟨.LD, .R_R, .E, .E, .NONE, 0, 4, 0⟩,  -- 0x5B
    ⟨.LD, .R_R, .E, .H, .NONE, 0, 4, 0⟩,  -- 0x5C
    ⟨.LD, .R_R, .E, .L, .NONE, 0, 4, 0⟩,  -- 0x5D
    ⟨.LD, .R_MR, .E, .HL, .NONE, 0, 8, 0⟩,  -- 0x5E
    ⟨.LD, .R_R, .E, .A, .NONE, 0, 4, 0⟩,  -- 0x5F
  ]

/-- Opcodes 0x60 - 0x6F. -/
def instructions_row6 : List Instruction :=
  [
    ⟨.LD, .R_R, .H, .B, .NONE, 0, 4, 0⟩,  -- 0x60
    ⟨.LD, .R_R, .H, .C, .NONE, 0, 4, 0⟩,  -- 0x61
    ⟨.LD, .R_R, .H, .D, .NONE, 0, 4, 0⟩,  -- 0x62
    ⟨.LD, .R_R, .H, .E, .NONE, 0, 4, 0⟩,  -- 0x63
    ⟨.LD, .R_R, .H, .H, .NONE, 0, 4, 0⟩,  -- 0x64
    ⟨.LD, .R_R, .H, .L, .NONE, 0, 4, 0⟩,  -- 0x65
    ⟨.LD, .R_MR, .H, .HL, .NONE, 0, 8, 0⟩,  -- 0x66
    ⟨.LD, .R_R, .H, .A, .NONE, 0, 4, 0⟩,  -- 0x67
    ⟨.LD, .R_R, .L, .B, .NONE, 0, 4, 0⟩,  -- 0x68
    ⟨.LD, .R_R, .L, .C, .NONE, 0, 4, 0⟩,  -- 0x69
    ⟨.LD, .R_R, .L, .D, .NONE, 0, 4, 0⟩,  -- 0x6A
    ⟨.LD, .R_R, .L, .E, .NONE, 0, 4, 0⟩,  -- 0x6B
    ⟨.LD, .R_R, .L, .H, .NONE, 0, 4, 0⟩,  -- 0x6C
    ⟨.LD, .R_R, .L, .L, .NONE, 0, 4, 0⟩,  -- 0x6D
    ⟨.LD, .R_MR, .L, .HL, .NONE, 0, 8, 0⟩,  -- 0x6E
    ⟨.LD, .R_R, .L, .A, .NONE, 0, 4, 0⟩,  -- 0x6F
  ]

/-- Opcodes 0x70 - 0x7F. -/
def instructions_row7 : List Instruction :=
  [
    ⟨.LD, .MR_R, .HL, .B, .NONE, 0, 8, 0⟩,  -- 0x70
    ⟨.LD, .MR_R, .HL, .C, .NONE, 0, 8, 0⟩,  -- 0x71
    ⟨.LD, .MR_R, .HL, .D, .NONE, 0, 8, 0⟩,  -- 0x72
    ⟨.LD, .MR_R, .HL, .E, .NONE, 0, 8, 0⟩,  -- 0x73
    ⟨.LD, .MR_R, .HL, .H, .NONE, 0, 8, 0⟩,  -- 0x74
    ⟨.LD, .MR_R, .HL, .L, .NONE, 0, 8, 0⟩,  -- 0x75
    ⟨.HALT, .IMP, .NONE, .NONE, .NONE, 0, 4, 0⟩,  -- 0x76
    ⟨.LD, .MR_R, .HL, .A, .NONE, 0, 8, 0⟩,  -- 0x77
    ⟨.LD, .R_R, .A, .B, .NONE, 0, 4, 0⟩,  -- 0x78
    ⟨.LD, .R_R, .A, .C, .NONE, 0, 4, 0⟩,  -- 0x79
    ⟨.LD, .R_R, .A, .D, .NONE, 0, 4, 0⟩,  -- 0x7A
    ⟨.LD, .R_R, .A, .E, .NONE, 0, 4, 0⟩,  -- 0x7B
    ⟨.LD, .R_R, .A, .H, .NONE, 0, 4, 0⟩,  -- 0x7C
    ⟨.LD, .R_R, .A, .L, .NONE, 0, 4, 0⟩,  -- 0x7D
    ⟨.LD, .R_MR, .A, .HL, .NONE, 0, 8, 0⟩,  -- 0x7E
    ⟨.LD, .R_R, .A, .A, .NONE, 0, 4, 0⟩,  -- 0x7F
  ]

/-- Opcodes 0x80 - 0x8F. -/
def instructions_row8 : List Instruction :=
  [
    ⟨.ADD, .R_R, .A, .B, .NONE, 0, 4, 0⟩,  -- 0x80
    ⟨.ADD, .R_R, .A, .C, .NONE, 0, 4, 0⟩,  -- 0x81
    ⟨.ADD, .R_R, .A, .D, .NONE, 0, 4, 0⟩,  -- 0x82
    ⟨.ADD, .R_R, .A, .E, .NONE, 0, 4, 0⟩,  -- 0x83
    ⟨.ADD, .R_R, .A, .H, .NONE, 0, 4, 0⟩,  -- 0x84
    ⟨.ADD, .R_R, .A, .L, .NONE, 0, 4, 0⟩,  -- 0x85
    ⟨.ADD, .R_MR, .A, .HL, .NONE, 0, 8, 0⟩,  -- 0x86
    ⟨.ADD, .R_R, .A, .A, .NONE, 0, 4, 0⟩,  -- 0x87
    ⟨.ADC, .R_R, .A, .B, .NONE, 0, 4, 0⟩,  -- 0x88
    ⟨.ADC, .R_R, .A, .C, .NONE, 0, 4, 0⟩,  -- 0x89
    ⟨.ADC, .R_R, .A, .D, .NONE, 0, 4, 0⟩,  -- 0x8A
    ⟨.ADC, .R_R, .A, .E, .NONE, 0, 4, 0⟩,  -- 0x8B
    ⟨.ADC, .R_R, .A, .H, .NONE, 0, 4, 0⟩,  -- 0x8C
    ⟨.ADC, .R_R, .A, .L, .NONE, 0, 4, 0⟩,  -- 0x8D
    ⟨.ADC, .R_MR, .A, .HL, .NONE, 0, 8, 0⟩,  -- 0x8E
    ⟨.ADC, .R_R, .A, .A, .NONE, 0, 4, 0⟩,  -- 0x8F
  ]

/-- Opcodes 0x90 - 0x9F. -/
def instructions_row9 : List Instruction :=
  [
    ⟨.SUB, .R_R, .A, .B, .NONE, 0, 4, 0⟩,  -- 0x90
    ⟨.SUB, .R_R, .A, .C, .NONE, 0, 4, 0⟩,  -- 0x91
    ⟨.SUB, .R_R, .A, .D, .NONE, 0, 4, 0⟩,  -- 0x92
    ⟨.SUB, .R_R, .A, .E, .NONE, 0, 4, 0⟩,  -- 0x93
    ⟨.SUB, .R_R, .A, .H, .NONE, 0, 4, 0⟩,  -- 0x94
    ⟨.SUB, .R_R, .A, .L, .NONE, 0, 4, 0⟩,  -- 0x95
    ⟨.SUB, .R_MR, .A, .HL, .NONE, 0, 8, 0⟩,  -- 0x96
    ⟨.SUB, .R_R, .A, .A, .NONE, 0, 4, 0⟩,  -- 0x97
    ⟨.SBC, .R_R, .A, .B, .NONE, 0, 4, 0⟩,  -- 0x98
    ⟨.SBC, .R_R, .A, .C, .NONE, 0, 4, 0⟩,  -- 0x99
    ⟨.SBC, .R_R, .A, .D, .NONE, 0, 4, 0⟩,  -- 0x9A
    ⟨.SBC, .R_R, .A, .E, .NONE, 0, 4, 0⟩,  -- 0x9B
    ⟨.SBC, .R_R, .A, .H, .NONE, 0, 4, 0⟩,  -- 0x9C
    ⟨.SBC, .R_R, .A, .L, .NONE, 0, 4, 0⟩,  -- 0x9D
    ⟨.SBC, .R_MR, .A, .HL, .NONE, 0, 8, 0⟩,  -- 0x9E
    ⟨.SBC, .R_R, .A, .A, .NONE, 0, 4, 0⟩,  -- 0x9F
  ]

/-- Opcodes 0xA0 - 0xAF. -/
def instructions_rowA : List Instruction :=
  [
    ⟨.AND, .R_R, .A, .B, .NONE, 0, 4, 0⟩,  -- 0xA0
    ⟨.AND, .R_R, .A, .C, .NONE, 0, 4, 0⟩,  -- 0xA1
    ⟨.AND, .R_R, .A, .D, .NONE, 0, 4, 0⟩,  -- 0xA2
    ⟨.AND, .R_R, .A, .E, .NONE, 0, 4, 0⟩,  -- 0xA3
    ⟨.AND, .R_R, .A, .H, .NONE, 0, 4, 0⟩,  -- 0xA4
    ⟨.AND, .R_R, .A, .L, .NONE, 0, 4, 0⟩,  -- 0xA5
    ⟨.AND, .R_MR, .A, .HL, .NONE, 0, 8, 0⟩,  -- 0xA6
    ⟨.AND, .R_R, .A, .A, .NONE, 0, 4, 0⟩,  -- 0xA7
    ⟨.XOR, .R_R, .A, .B, .NONE, 0, 4, 0⟩,  -- 0xA8
    ⟨.XOR, .R_R, .A, .C, .NONE, 0, 4, 0⟩,  -- 0xA9
    ⟨.XOR, .R_R, .A, .D, .NONE, 0, 4, 0⟩,  -- 0xAA
    ⟨.XOR, .R_R, .A, .E, .NONE, 0, 4, 0⟩,  -- 0xAB
    ⟨.XOR, .R_R, .A, .H, .NONE, 0, 4, 0⟩,  -- 0xAC
    ⟨.XOR, .R_R, .A, .L, .NONE, 0, 4, 0⟩,  -- 0xAD
    ⟨.XOR, .R_MR, .A, .HL, .NONE, 0, 8, 0⟩,  -- 0xAE
    ⟨.XOR, .R_R, .A, .A, .NONE, 0, 4, 0⟩,  -- 0xAF
  ]

/-- Opcodes 0xB0 - 0xBF. -/
def instructions_rowB : List Instruction :=
  [
    ⟨.OR, .R_R, .A, .B, .NONE, 0, 4, 0⟩,  -- 0xB0
    ⟨.OR, .R_R, .A, .C, .NONE, 0, 4, 0⟩,  -- 0xB1
    ⟨.OR, .R_R, .A, .D, .NONE, 0, 4, 0⟩,  -- 0xB2
    ⟨.OR, .R_R, .A, .E, .NONE, 0, 4, 0⟩,  -- 0xB3
    ⟨.OR, .R_R, .A, .H, .NONE, 0, 4, 0⟩,  -- 0xB4
    ⟨.OR, .R_R, .A, .L, .NONE, 0, 4, 0⟩,  -- 0xB5
    ⟨.OR, .R_MR, .A, .HL, .NONE, 0, 8, 0⟩,  -- 0xB6
    ⟨.OR, .R_R, .A, .A, .NONE, 0, 4, 0⟩,  -- 0xB7
    ⟨.CP, .R_R, .A, .B, .NONE, 0, 4, 0⟩,  -- 0xB8
    ⟨.CP, .R_R, .A, .C, .NONE, 0, 4, 0⟩,  -- 0xB9
    ⟨.CP, .R_R, .A, .D, .NONE, 0, 4, 0⟩,  -- 0xBA
    ⟨.CP, .R_R, .A, .E, .NONE, 0, 4, 0⟩,  -- 0xBB
    ⟨.CP, .R_R, .A, .H, .NONE, 0, 4, 0⟩,  -- 0xBC
    ⟨.CP, .R_R, .A, .L, .NONE, 0, 4, 0⟩,  -- 0xBD
    ⟨.CP, .R_MR, .A, .HL, .NONE, 0, 8, 0⟩,  -- 0xBE
    ⟨.CP, .R_R, .A, .A, .NONE, 0, 4, 0⟩,  -- 0xBF
  ]

/-- Opcodes 0xC0 - 0xCF. -/
def instructions_rowC : List Instruction :=
  [
    ⟨.RET, .CC, .CC_NZ, .NONE, .NZ, 0, 20, 8⟩,  -- 0xC0
    ⟨.POP, .R, .BC, .NONE, .NONE, 0, 12, 0⟩,  -- 0xC1
    ⟨.JP, .CC_D16, .CC_NZ, .NONE, .NZ, 0, 16, 12⟩,  -- 0xC2
    ⟨.JP, .D16, .NONE, .NONE, .NONE, 0, 16, 0⟩,  -- 0xC3
    ⟨.CALL, .CC_D16, .CC_NZ, .NONE, .NZ, 0, 24, 12⟩,  -- 0xC4
    ⟨.PUSH, .R, .BC, .NONE, .NONE, 0, 16, 0⟩,  -- 0xC5
    ⟨.ADD, .R_D8, .A, .NONE, .NONE, 0, 8, 0⟩,  -- 0xC6
    ⟨.RST, .IMP, .NONE, .NONE, .NONE, 0x00, 16, 0⟩,  -- 0xC7
    ⟨.RET, .CC, .CC_Z, .NONE, .Z, 0, 20, 8⟩,  -- 0xC8
    ⟨.RET, .IMP, .NONE, .NONE, .NONE, 0, 16, 0⟩,  -- 0xC9
    ⟨.JP, .CC_D16, .CC_Z, .NONE, .Z, 0, 16, 12⟩,  -- 0xCA
    ⟨.CB, .D8, .NONE, .NONE, .NONE, 0, 4, 0⟩,  -- 0xCB
    ⟨.CALL, .CC_D16, .CC_Z, .NONE, .Z, 0, 24, 12⟩,  -- 0xCC
    ⟨.CALL, .D16, .NONE, .NONE, .NONE, 0, 24, 0⟩,  -- 0xCD
    ⟨.ADC, .R_D8, .A, .NONE, .NONE, 0, 8, 0⟩,  -- 0xCE
    ⟨.RST, .IMP, .NONE, .NONE, .NONE, 0x08, 16, 0⟩,  -- 0xCF
  ]

/-- Opcodes 0xD0 - 0xDF. -/
def instructions_rowD : List Instruction :=
  [
    ⟨.RET, .CC, .CC_NC, .NONE, .NC, 0, 20, 8⟩,  -- 0xD0
    ⟨.POP, .R, .DE, .NONE, .NONE, 0, 12, 0⟩,  -- 0xD1
    ⟨.JP, .CC_D16, .CC_NC, .NONE, .NC, 0, 16, 12⟩,  -- 0xD2
    ⟨.ERR, .IMP, .NONE, .NONE, .NONE, 0, 4, 0⟩,  -- 0xD3
    ⟨.CALL, .CC_D16, .CC_NC, .NONE, .NC, 0, 24, 12⟩,  -- 0xD4
    ⟨.PUSH, .R, .DE, .NONE, .NONE, 0, 16, 0⟩,  -- 0xD5
    ⟨.SUB, .R_D8, .A, .NONE, .NONE, 0, 8, 0⟩,  -- 0xD6
    ⟨.RST, .IMP, .NONE, .NONE, .NONE, 0x10, 16, 0⟩,  -- 0xD7
    ⟨.RET, .CC, .CC_C, .NONE, .C, 0, 20, 8⟩,  -- 0xD8
    ⟨.RETI, .IMP, .NONE, .NONE, .NONE, 0, 16, 0⟩,  -- 0xD9
    ⟨.JP, .CC_D16, .CC_C, .NONE, .C, 0, 16, 12⟩,  -- 0xDA
    ⟨.ERR, .IMP, .NONE, .NONE, .NONE, 0, 4, 0⟩,  -- 0xDB
    ⟨.CALL, .CC_D16, .CC_C, .NONE, .C, 0, 24, 12⟩,  -- 0xDC
    ⟨.ERR, .IMP, .NONE, .NONE, .NONE, 0, 4, 0⟩,  -- 0xDD
    ⟨.SBC, .R_D8, .A, .NONE, .NONE, 0, 8, 0⟩,  -- 0xDE
    ⟨.RST, .IMP, .NONE, .NONE, .NONE, 0x18, 16, 0⟩,  -- 0xDF
  ]

/-- Opcodes 0xE0 - 0xEF. -/
def instructions_rowE : List Instruction :=
  [
    ⟨.LDH, .A8_R, .NONE, .A, .NONE, 0, 12, 0⟩,  -- 0xE0
    ⟨.POP, .R, .HL, .NONE, .NONE, 0, 12, 0⟩,  -- 0xE1
    ⟨.LDH, .MR_R, .C, .A, .NONE, 0, 8, 0⟩,  -- 0xE2
    ⟨.ERR, .IMP, .NONE, .NONE, .NONE, 0, 4, 0⟩,  -- 0xE3
    ⟨.ERR, .IMP, .NONE, .NONE, .NONE, 0, 4, 0⟩,  -- 0xE4
    ⟨.PUSH, .R, .HL, .NONE, .NONE, 0, 16, 0⟩,  -- 0xE5
    ⟨.AND, .R_D8, .A, .NONE, .NONE, 0, 8, 0⟩,  -- 0xE6
    ⟨.RST, .IMP, .NONE, .NONE, .NONE, 0x20, 16, 0⟩,  -- 0xE7
    ⟨.ADD, .R_D8, .SP, .NONE, .NONE, 0, 16, 0⟩,  -- 0xE8
    ⟨.JP, .R, .HL, .NONE, .NONE, 0, 4, 0⟩,  -- 0xE9
    ⟨.LD, .A16_R, .NONE, .A, .NONE, 0, 16, 0⟩,  -- 0xEA
    ⟨.ERR, .IMP, .NONE, .NONE, .NONE, 0, 4, 0⟩,  -- 0xEB
    ⟨.ERR, .IMP, .NONE, .NONE, .NONE, 0, 4, 0⟩,  -- 0xEC
    ⟨.ERR, .IMP, .NONE, .NONE, .NONE, 0, 4, 0⟩,  -- 0xED
    ⟨.XOR, .R_D8, .A, .NONE, .NONE, 0, 8, 0⟩,  -- 0xEE
    ⟨.RST, .IMP, .NONE, .NONE, .NONE, 0x28, 16, 0⟩,  -- 0xEF
  ]

/-- Opcodes 0xF0 - 0xFF. -/
def instructions_rowF : List Instruction :=
  [
    ⟨.LDH, .R_A8, .A, .NONE, .NONE, 0, 12, 0⟩,  -- 0xF0
    ⟨.POP, .R, .AF, .NONE, .NONE, 0, 12, 0⟩,  -- 0xF1
    ⟨.LDH, .R_MR, .A, .C, .NONE, 0, 8, 0⟩,  -- 0xF2
    ⟨.DI, .IMP, .NONE, .NONE, .NONE, 0, 4, 0⟩,  -- 0xF3
    ⟨.ERR, .IMP, .NONE, .NONE, .NONE, 0, 4, 0⟩,  -- 0xF4
    ⟨.PUSH, .R, .AF, .NONE, .NONE, 0, 16, 0⟩,  -- 0xF5
    ⟨.OR, .R_D8, .A, .NONE, .NONE, 0, 8, 0⟩,  -- 0xF6
    ⟨.RST, .IMP, .NONE, .NONE, .NONE, 0x30, 16, 0⟩,  -- 0xF7
    ⟨.LD, .HL_SPR, .HL, .SP, .NONE, 0, 12, 0⟩,  -- 0xF8
    ⟨.LD, .R_R, .SP, .HL, .NONE, 0, 8, 0⟩,  -- 0xF9
    ⟨.LD, .R_A16, .A, .NONE, .NONE, 0, 16, 0⟩,  -- 0xFA
    ⟨.EI, .IMP, .NONE, .NONE, .NONE, 0, 4, 0⟩,  -- 0xFB
    ⟨.ERR, .IMP, .NONE, .NONE, .NONE, 0, 4, 0⟩,  -- 0xFC
    ⟨.ERR, .IMP, .NONE, .NONE, .NONE, 0, 4, 0⟩,  -- 0xFD
    ⟨.CP, .R_D8, .A, .NONE, .NONE, 0, 8, 0⟩,  -- 0xFE
    ⟨.RST, .IMP, .NONE, .NONE, .NONE, 0x38, 16, 0⟩  -- 0xFF
  ]

/-- The 256-entry primary opcode table from
`Instructions::initialize_instructions` (`instructions.cpp`), in
opcode order 0x00..0xFF; `get` indexes it like the C++ `std::array`. -/
def instructions : List Instruction :=
  instructions_row0 ++ instructions_row1 ++ instructions_row2 ++ instructions_row3 ++ instructions_row4 ++ instructions_row5 ++ instructions_row6 ++ instructions_row7 ++ instructions_row8 ++ instructions_row9 ++ instructions_rowA ++ instructions_rowB ++ instructions_rowC ++ instructions_rowD ++ instructions_rowE ++ instructions_rowF

/-- Opcodes 0x00 - 0x0F. -/
def cb_instructions_row0 : List Instruction :=
  [
    ⟨.RLC, .R, .B, .NONE, .NONE, 0, 8, 0⟩,  -- 0x00
    ⟨.RLC, .R, .C, .NONE, .NONE, 0, 8, 0⟩,  -- 0x01
    ⟨.RLC, .R, .D, .NONE, .NONE, 0, 8, 0⟩,  -- 0x02
    ⟨.RLC, .R, .E, .NONE, .NONE, 0, 8, 0⟩,  -- 0x03
    ⟨.RLC, .R, .H, .NONE, .NONE, 0, 8, 0⟩,  -- 0x04
    ⟨.RLC, .R, .L, .NONE, .NONE, 0, 8, 0⟩,  -- 0x05
    ⟨.RLC, .MR, .HL, .NONE, .NONE, 0, 16, 0⟩,  -- 0x06
    ⟨.RLC, .R, .A, .NONE, .NONE, 0, 8, 0⟩,  -- 0x07
    ⟨.RRC, .R, .B, .NONE, .NONE, 0, 8, 0⟩,  -- 0x08
    ⟨.RRC, .R, .C, .NONE, .NONE, 0, 8, 0⟩,  -- 0x09
    ⟨.RRC, .R, .D, .NONE, .NONE, 0, 8, 0⟩,  -- 0x0A
    ⟨.RRC, .R, .E, .NONE, .NONE, 0, 8, 0⟩,  -- 0x0B
    ⟨.RRC, .R, .H, .NONE, .NONE, 0, 8, 0⟩,  -- 0x0C
    ⟨.RRC, .R, .L, .NONE, .NONE, 0, 8, 0⟩,  -- 0x0D
    ⟨.RRC, .MR, .HL, .NONE, .NONE, 0, 16, 0⟩,  -- 0x0E
    ⟨.RRC, .R, .A, .NONE, .NONE, 0, 8, 0⟩,  -- 0x0F
  ]

/-- Opcodes 0x10 - 0x1F. -/
def cb_instructions_row1 : List Instruction :=
  [
    ⟨.RL, .R, .B, .NONE, .NONE, 0, 8, 0⟩,  -- 0x10
    ⟨.RL, .R, .C, .NONE, .NONE, 0, 8, 0⟩,  -- 0x11
    ⟨.RL, .R, .D, .NONE, .NONE, 0, 8, 0⟩,  -- 0x12
    ⟨.RL, .R, .E, .NONE, .NONE, 0, 8, 0⟩,  -- 0x13
    ⟨.RL, .R, .H, .NONE, .NONE, 0, 8, 0⟩,  -- 0x14
    ⟨.RL, .R, .L, .NONE, .NONE, 0, 8, 0⟩,  -- 0x15
    ⟨.RL, .MR, .HL, .NONE, .NONE, 0, 16, 0⟩,  -- 0x16
    ⟨.RL, .R, .A, .NONE, .NONE, 0, 8, 0⟩,  -- 0x17
    ⟨.RR, .R, .B, .NONE, .NONE, 0, 8, 0⟩,  -- 0x18
    ⟨.RR, .R, .C, .NONE, .NONE, 0, 8, 0⟩,  -- 0x19
    ⟨.RR, .R, .D, .NONE, .NONE, 0, 8, 0⟩,  -- 0x1A
    ⟨.RR, .R, .E, .NONE, .NONE, 0, 8, 0⟩,  -- 0x1B
    ⟨.RR, .R, .H, .NONE, .NONE, 0, 8, 0⟩,  -- 0x1C
    ⟨.RR, .R, .L, .NONE, .NONE, 0, 8, 0⟩,  -- 0x1D
    ⟨.RR, .MR, .HL, .NONE, .NONE, 0, 16, 0⟩,  -- 0x1E
    ⟨.RR, .R, .A, .NONE, .NONE, 0, 8, 0⟩,  -- 0x1F
  ]

/-- Opcodes 0x20 - 0x2F. -/
def cb_instructions_row2 : List Instruction :=
  [
    ⟨.SLA, .R, .B, .NONE, .NONE, 0, 8, 0⟩,  -- 0x20
    ⟨.SLA, .R, .C, .NONE, .NONE, 0, 8, 0⟩,  -- 0x21
    ⟨.SLA, .R, .D, .NONE, .NONE, 0, 8, 0⟩,  -- 0x22
    ⟨.SLA, .R, .E, .NONE, .NONE, 0, 8, 0⟩,  -- 0x23
    ⟨.SLA, .R, .H, .NONE, .NONE, 0, 8, 0⟩,  -- 0x24
    ⟨.SLA, .R, .L, .NONE, .NONE, 0, 8, 0⟩,  -- 0x25
    ⟨.SLA, .MR, .HL, .NONE, .NONE, 0, 16, 0⟩,  -- 0x26
    ⟨.SLA, .R, .A, .NONE, .NONE, 0, 8, 0⟩,  -- 0x27
    ⟨.SRA, .R, .B, .NONE, .NONE, 0, 8, 0⟩,  -- 0x28
    ⟨.SRA, .R, .C, .NONE, .NONE, 0, 8, 0⟩,  -- 0x29
    ⟨.SRA, .R, .D, .NONE, .NONE, 0, 8, 0⟩,  -- 0x2A
    ⟨.SRA, .R, .E, .NONE, .NONE, 0, 8, 0⟩,  -- 0x2B
    ⟨.SRA, .R, .H, .NONE, .NONE, 0, 8, 0⟩,  -- 0x2C
    ⟨.SRA, .R, .L, .NONE, .NONE, 0, 8, 0⟩,  -- 0x2D
    ⟨.SRA, .MR, .HL, .NONE, .NONE, 0, 16, 0⟩,  -- 0x2E
    ⟨.SRA, .R, .A, .NONE, .NONE, 0, 8, 0⟩,  -- 0x2F
  ]

/-- Opcodes 0x30 - 0x3F. -/
def cb_instructions_row3 : List Instruction :=
  [
    ⟨.SWAP, .R, .B, .NONE, .NONE, 0, 8, 0⟩,  -- 0x30
    ⟨.SWAP, .R, .C, .NONE, .NONE, 0, 8, 0⟩,  -- 0x31
    ⟨.SWAP, .R, .D, .NONE, .NONE, 0, 8, 0⟩,  -- 0x32
    ⟨.SWAP, .R, .E, .NONE, .NONE, 0, 8, 0⟩,  -- 0x33
    ⟨.SWAP, .R, .H, .NONE, .NONE, 0, 8, 0⟩,  -- 0x34
    ⟨.SWAP, .R, .L, .NONE, .NONE, 0, 8, 0⟩,  -- 0x35
    ⟨.SWAP, .MR, .HL, .NONE, .NONE, 0, 16, 0⟩,  -- 0x36
    ⟨.SWAP, .R, .A, .NONE, .NONE, 0, 8, 0⟩,  -- 0x37
    ⟨.SRL, .R, .B, .NONE, .NONE, 0, 8, 0⟩,  -- 0x38
    ⟨.SRL, .R, .C, .NONE, .NONE, 0, 8, 0⟩,  -- 0x39
    ⟨.SRL, .R, .D, .NONE, .NONE, 0, 8, 0⟩,  -- 0x3A
    ⟨.SRL, .R, .E, .NONE, .NONE, 0, 8, 0⟩,  -- 0x3B
    ⟨.SRL, .R, .H, .NONE, .NONE, 0, 8, 0⟩,  -- 0x3C
    ⟨.SRL, .R, .L, .NONE, .NONE, 0, 8, 0⟩,  -- 0x3D
    ⟨.SRL, .MR, .HL, .NONE, .NONE, 0, 16, 0⟩,  -- 0x3E
    ⟨.SRL, .R, .A, .NONE, .NONE, 0, 8, 0⟩,  -- 0x3F
  ]

/-- Opcodes 0x40 - 0x4F. -/
def cb_instructions_row4 : List Instruction :=
  [
    ⟨.BIT, .R, .B, .NONE, .NONE, 0, 8, 0⟩,  -- 0x40
    ⟨.BIT, .R, .C, .NONE, .NONE, 0, 8, 0⟩,  -- 0x41
    ⟨.BIT, .R, .D, .NONE, .NONE, 0, 8, 0⟩,  -- 0x42
    ⟨.BIT, .R, .E, .NONE, .NONE, 0, 8, 0⟩,  -- 0x43
    ⟨.BIT, .R, .H, .NONE, .NONE, 0, 8, 0⟩,  -- 0x44
    ⟨.BIT, .R, .L, .NONE, .NONE, 0, 8, 0⟩,  -- 0x45
    ⟨.BIT, .MR, .HL, .NONE, .NONE, 0, 12, 0⟩,  -- 0x46
    ⟨.BIT, .R, .A, .NONE, .NONE, 0, 8, 0⟩,  -- 0x47
    ⟨.BIT, .R, .B, .NONE, .NONE, 1, 8, 0⟩,  -- 0x48
    ⟨.BIT, .R, .C, .NONE, .NONE, 1, 8, 0⟩,  -- 0x49
    ⟨.BIT, .R, .D, .NONE, .NONE, 1, 8, 0⟩,  -- 0x4A
    ⟨.BIT, .R, .E, .NONE, .NONE, 1, 8, 0⟩,  -- 0x4B
    ⟨.BIT, .R, .H, .NONE, .NONE, 1, 8, 0⟩,  -- 0x4C
    ⟨.BIT, .R, .L, .NONE, .NONE, 1, 8, 0⟩,  -- 0x4D
    ⟨.BIT, .MR, .HL, .NONE, .NONE, 1, 12, 0⟩,  -- 0x4E
    ⟨.BIT, .R, .A, .NONE, .NONE, 1, 8, 0⟩,  -- 0x4F
  ]

/-- Opcodes 0x50 - 0x5F. -/
def cb_instructions_row5 : List Instruction :=
  [
    ⟨.BIT, .R, .B, .NONE, .NONE, 2, 8, 0⟩,  -- 0x50
    ⟨.BIT, .R, .C, .NONE, .NONE, 2, 8, 0⟩,  -- 0x51
    ⟨.BIT, .R, .D, .NONE, .NONE, 2, 8, 0⟩,  -- 0x52
    ⟨.BIT, .R, .E, .NONE, .NONE, 2, 8, 0⟩,  -- 0x53
    ⟨.BIT, .R, .H, .NONE, .NONE, 2, 8, 0⟩,  -- 0x54
    ⟨.BIT, .R, .L, .NONE, .NONE, 2, 8, 0⟩,  -- 0x55
    ⟨.BIT, .MR, .HL, .NONE, .NONE, 2, 12, 0⟩,  -- 0x56
    ⟨.BIT, .R, .A, .NONE, .NONE, 2, 8, 0⟩,  -- 0x57
    ⟨.BIT, .R, .B, .NONE, .NONE, 3, 8, 0⟩,  -- 0x58
    ⟨.BIT, .R, .C, .NONE, .NONE, 3, 8, 0⟩,  -- 0x59
    ⟨.BIT, .R, .D, .NONE, .NONE, 3, 8, 0⟩,  -- 0x5A
    ⟨.BIT, .R, .E, .NONE, .NONE, 3, 8, 0⟩,  -- 0x5B
    ⟨.BIT, .R, .H, .NONE, .NONE, 3, 8, 0⟩,  -- 0x5C
    ⟨.BIT, .R, .L, .NONE, .NONE, 3, 8, 0⟩,  -- 0x5D
    ⟨.BIT, .MR, .HL, .NONE, .NONE, 3, 12, 0⟩,  -- 0x5E
    ⟨.BIT, .R, .A, .NONE, .NONE, 3, 8, 0⟩,  -- 0x5F
  ]

/-- Opcodes 0x60 - 0x6F. -/
def cb_instructions_row6 : List Instruction :=
  [
    ⟨.BIT, .R, .B, .NONE, .NONE, 4, 8, 0⟩,  -- 0x60
    ⟨.BIT, .R, .C, .NONE, .NONE, 4, 8, 0⟩,  -- 0x61
    ⟨.BIT, .R, .D, .NONE, .NONE, 4, 8, 0⟩,  -- 0x62
    ⟨.BIT, .R, .E, .NONE, .NONE, 4, 8, 0⟩,  -- 0x63
    ⟨.BIT, .R, .H, .NONE, .NONE, 4, 8, 0⟩,  -- 0x64
    ⟨.BIT, .R, .L, .NONE, .NONE, 4, 8, 0⟩,  -- 0x65
    ⟨.BIT, .MR, .HL, .NONE, .NONE, 4, 12, 0⟩,  -- 0x66
    ⟨.BIT, .R, .A, .NONE, .NONE, 4, 8, 0⟩,  -- 0x67
    ⟨.BIT, .R, .B, .NONE, .NONE, 5, 8, 0⟩,  -- 0x68
    ⟨.BIT, .R, .C, .NONE, .NONE, 5, 8, 0⟩,  -- 0x69
    ⟨.BIT, .R, .D, .NONE, .NONE, 5, 8, 0⟩,  -- 0x6A
    ⟨.BIT, .R, .E, .NONE, .NONE, 5, 8, 0⟩,  -- 0x6B
    ⟨.BIT, .R, .H, .NONE, .NONE, 5, 8, 0⟩,  -- 0x6C
    ⟨.BIT, .R, .L, .NONE, .NONE, 5, 8, 0⟩,  -- 0x6D
    ⟨.BIT, .MR, .HL, .NONE, .NONE, 5, 12, 0⟩,  -- 0x6E
    ⟨.BIT, .R, .A, .NONE, .NONE, 5, 8, 0⟩,  -- 0x6F
  ]

/-- Opcodes 0x70 - 0x7F. -/
def cb_instructions_row7 : List Instruction :=
  [
    ⟨.BIT, .R, .B, .NONE, .NONE, 6, 8, 0⟩,  -- 0x70
    ⟨.BIT, .R, .C, .NONE, .NONE, 6, 8, 0⟩,  -- 0x71
    ⟨.BIT, .R, .D, .NONE, .NONE, 6, 8, 0⟩,  -- 0x72
    ⟨.BIT, .R, .E, .NONE, .NONE, 6, 8, 0⟩,  -- 0x73
    ⟨.BIT, .R, .H, .NONE, .NONE, 6, 8, 0⟩,  -- 0x74
    ⟨.BIT, .R, .L, .NONE, .NONE, 6, 8, 0⟩,  -- 0x75
    ⟨.BIT, .MR, .HL, .NONE, .NONE, 6, 12, 0⟩,  -- 0x76
    ⟨.BIT, .R, .A, .NONE, .NONE, 6, 8, 0⟩,  -- 0x77
    ⟨.BIT, .R, .B, .NONE, .NONE, 7, 8, 0⟩,  -- 0x78
    ⟨.BIT, .R, .C, .NONE, .NONE, 7, 8, 0⟩,  -- 0x79
    ⟨.BIT, .R, .D, .NONE, .NONE, 7, 8, 0⟩,  -- 0x7A
    ⟨.BIT, .R, .E, .NONE, .NONE, 7, 8, 0⟩,  -- 0x7B
    ⟨.BIT, .R, .H, .NONE, .NONE, 7, 8, 0⟩,  -- 0x7C
    ⟨.BIT, .R, .L, .NONE, .NONE, 7, 8, 0⟩,  -- 0x7D
    ⟨.BIT, .MR, .HL, .NONE, .NONE, 7, 12, 0⟩,  -- 0x7E
    ⟨.BIT, .R, .A, .NONE, .NONE, 7, 8, 0⟩,  -- 0x7F
  ]

/-- Opcodes 0x80 - 0x8F. -/
def cb_instructions_row8 : List Instruction :=
  [
    ⟨.RES, .R, .B, .NONE, .NONE, 0, 8, 0⟩,  -- 0x80
    ⟨.RES, .R, .C, .NONE, .NONE, 0, 8, 0⟩,  -- 0x81
    ⟨.RES, .R, .D, .NONE, .NONE, 0, 8, 0⟩,  -- 0x82
    ⟨.RES, .R, .E, .NONE, .NONE, 0, 8, 0⟩,  -- 0x83
    ⟨.RES, .R, .H, .NONE, .NONE, 0, 8, 0⟩,  -- 0x84
    ⟨.RES, .R, .L, .NONE, .NONE, 0, 8, 0⟩,  -- 0x85
    ⟨.RES, .MR, .HL, .NONE, .NONE, 0, 16, 0⟩,  -- 0x86
    ⟨.RES, .R, .A, .NONE, .NONE, 0, 8, 0⟩,  -- 0x87
    ⟨.RES, .R, .B, .NONE, .NONE, 1, 8, 0⟩,  -- 0x88
    ⟨.RES, .R, .C, .NONE, .NONE, 1, 8, 0⟩,  -- 0x89
    ⟨.RES, .R, .D, .NONE, .NONE, 1, 8, 0⟩,  -- 0x8A
    ⟨.RES, .R, .E, .NONE, .NONE, 1, 8, 0⟩,  -- 0x8B
    ⟨.RES, .R, .H, .NONE, .NONE, 1, 8, 0⟩,  -- 0x8C
    ⟨.RES, .R, .L, .NONE, .NONE, 1, 8, 0⟩,  -- 0x8D
    ⟨.RES, .MR, .HL, .NONE, .NONE, 1, 16, 0⟩,  -- 0x8E
    ⟨.RES, .R, .A, .NONE, .NONE, 1, 8, 0⟩,  -- 0x8F
  ]

/-- Opcodes 0x90 - 0x9F. -/
def cb_instructions_row9 : List Instruction :=
  [
    ⟨.RES, .R, .B, .NONE, .NONE, 2, 8, 0⟩,  -- 0x90
    ⟨.RES, .R, .C, .NONE, .NONE, 2, 8, 0⟩,  -- 0x91
    ⟨.RES, .R, .D, .NONE, .NONE, 2, 8, 0⟩,  -- 0x92
    ⟨.RES, .R, .E, .NONE, .NONE, 2, 8, 0⟩,  -- 0x93
    ⟨.RES, .R, .H, .NONE, .NONE, 2, 8, 0⟩,  -- 0x94
    ⟨.RES, .R, .L, .NONE, .NONE, 2, 8, 0⟩,  -- 0x95
    ⟨.RES, .MR, .HL, .NONE, .NONE, 2, 16, 0⟩,  -- 0x96
    ⟨.RES, .R, .A, .NONE, .NONE, 2, 8, 0⟩,  -- 0x97
    ⟨.RES, .R, .B, .NONE, .NONE, 3, 8, 0⟩,  -- 0x98
    ⟨.RES, .R, .C, .NONE, .NONE, 3, 8, 0⟩,  -- 0x99
    ⟨.RES, .R, .D, .NONE, .NONE, 3, 8, 0⟩,  -- 0x9A
    ⟨.RES, .R, .E, .NONE, .NONE, 3, 8, 0⟩,  -- 0x9B
    ⟨.RES, .R, .H, .NONE, .NONE, 3, 8, 0⟩,  -- 0x9C
    ⟨.RES, .R, .L, .NONE, .NONE, 3, 8, 0⟩,  -- 0x9D
    ⟨.RES, .MR, .HL, .NONE, .NONE, 3, 16, 0⟩,  -- 0x9E
    ⟨.RES, .R, .A, .NONE, .NONE, 3, 8, 0⟩,  -- 0x9F
  ]

/-- Opcodes 0xA0 - 0xAF. -/
def cb_instructions_rowA : List Instruction :=
  [
    ⟨.RES, .R, .B, .NONE, .NONE, 4, 8, 0⟩,  -- 0xA0
    ⟨.RES, .R, .C, .NONE, .NONE, 4, 8, 0⟩,  -- 0xA1
    ⟨.RES, .R, .D, .NONE, .NONE, 4, 8, 0⟩,  -- 0xA2
    ⟨.RES, .R, .E, .NONE, .NONE, 4, 8, 0⟩,  -- 0xA3
    ⟨.RES, .R, .H, .NONE, .NONE, 4, 8, 0⟩,  -- 0xA4
    ⟨.RES, .R, .L, .NONE, .NONE, 4, 8, 0⟩,  -- 0xA5
    ⟨.RES, .MR, .HL, .NONE, .NONE, 4, 16, 0⟩,  -- 0xA6
    ⟨.RES, .R, .A, .NONE, .NONE, 4, 8, 0⟩,  -- 0xA7
    ⟨.RES, .R, .B, .NONE, .NONE, 5, 8, 0⟩,  -- 0xA8
    ⟨.RES, .R, .C, .NONE, .NONE, 5, 8, 0⟩,  -- 0xA9
    ⟨.RES, .R, .D, .NONE, .NONE, 5, 8, 0⟩,  -- 0xAA
    ⟨.RES, .R, .E, .NONE, .NONE, 5, 8, 0⟩,  -- 0xAB
    ⟨.RES, .R, .H, .NONE, .NONE, 5, 8, 0⟩,  -- 0xAC
    ⟨.RES, .R, .L, .NONE, .NONE, 5, 8, 0⟩,  -- 0xAD
    ⟨.RES, .MR, .HL, .NONE, .NONE, 5, 16, 0⟩,  -- 0xAE
    ⟨.RES, .R, .A, .NONE, .NONE, 5, 8, 0⟩,  -- 0xAF
  ]

/-- Opcodes 0xB0 - 0xBF. -/
def cb_instructions_rowB : List Instruction :=
  [
    ⟨.RES, .R, .B, .NONE, .NONE, 6, 8, 0⟩,  -- 0xB0
    ⟨.RES, .R, .C, .NONE, .NONE, 6, 8, 0⟩,  -- 0xB1
    ⟨.RES, .R, .D, .NONE, .NONE, 6, 8, 0⟩,  -- 0xB2
    ⟨.RES, .R, .E, .NONE, .NONE, 6, 8, 0⟩,  -- 0xB3
    ⟨.RES, .R, .H, .NONE, .NONE, 6, 8, 0⟩,  -- 0xB4
    ⟨.RES, .R, .L, .NONE, .NONE, 6, 8, 0⟩,  -- 0xB5
    ⟨.RES, .MR, .HL, .NONE, .NONE, 6, 16, 0⟩,  -- 0xB6
    ⟨.RES, .R, .A, .NONE, .NONE, 6, 8, 0⟩,  -- 0xB7
    ⟨.RES, .R, .B, .NONE, .NONE, 7, 8, 0⟩,  -- 0xB8
    ⟨.RES, .R, .C, .NONE, .NONE, 7, 8, 0⟩,  -- 0xB9
    ⟨.RES, .R, .D, .NONE, .NONE, 7, 8, 0⟩,  -- 0xBA
    ⟨.RES, .R, .E, .NONE, .NONE, 7, 8, 0⟩,  -- 0xBB
    ⟨.RES, .R, .H, .NONE, .NONE, 7, 8, 0⟩,  -- 0xBC
    ⟨.RES, .R, .L, .NONE, .NONE, 7, 8, 0⟩,  -- 0xBD
    ⟨.RES, .MR, .HL, .NONE, .NONE, 7, 16, 0⟩,  -- 0xBE
    ⟨.RES, .R, .A, .NONE, .NONE, 7, 8, 0⟩,  -- 0xBF
  ]

/-- Opcodes 0xC0 - 0xCF. -/
def cb_instructions_rowC : List Instruction :=
  [
    ⟨.SET, .R, .B, .NONE, .NONE, 0, 8, 0⟩,  -- 0xC0
    ⟨.SET, .R, .C, .NONE, .NONE, 0, 8, 0⟩,  -- 0xC1
    ⟨.SET, .R, .D, .NONE, .NONE, 0, 8, 0⟩,  -- 0xC2
    ⟨.SET, .R, .E, .NONE, .NONE, 0, 8, 0⟩,  -- 0xC3
    ⟨.SET, .R, .H, .NONE, .NONE, 0, 8, 0⟩,  -- 0xC4
    ⟨.SET, .R, .L, .NONE, .NONE, 0, 8, 0⟩,  -- 0xC5
    ⟨.SET, .MR, .HL, .NONE, .NONE, 0, 16, 0⟩,  -- 0xC6
    ⟨.SET, .R, .A, .NONE, .NONE, 0, 8, 0⟩,  -- 0xC7
    ⟨.SET, .R, .B, .NONE, .NONE, 1, 8, 0⟩,  -- 0xC8
    ⟨.SET, .R, .C, .NONE, .NONE, 1, 8, 0⟩,  -- 0xC9
    ⟨.SET, .R, .D, .NONE, .NONE, 1, 8, 0⟩,  -- 0xCA
    ⟨.SET, .R, .E, .NONE, .NONE, 1, 8, 0⟩,  -- 0xCB
    ⟨.SET, .R, .H, .NONE, .NONE, 1, 8, 0⟩,  -- 0xCC
    ⟨.SET, .R, .L, .NONE, .NONE, 1, 8, 0⟩,  -- 0xCD
    ⟨.SET, .MR, .HL, .NONE, .NONE, 1, 16, 0⟩,  -- 0xCE
    ⟨.SET, .R, .A, .NONE, .NONE, 1, 8, 0⟩,  -- 0xCF
  ]

/-- Opcodes 0xD0 - 0xDF. -/
def cb_instructions_rowD : List Instruction :=
  [
    ⟨.SET, .R, .B, .NONE, .NONE, 2, 8, 0⟩,  -- 0xD0
    ⟨.SET, .R, .C, .NONE, .NONE, 2, 8, 0⟩,  -- 0xD1
    ⟨.SET, .R, .D, .NONE, .NONE, 2, 8, 0⟩,  -- 0xD2
    ⟨.SET, .R, .E, .NONE, .NONE, 2, 8, 0⟩,  -- 0xD3
    ⟨.SET, .R, .H, .NONE, .NONE, 2, 8, 0⟩,  -- 0xD4
    ⟨.SET, .R, .L, .NONE, .NONE, 2, 8, 0⟩,  -- 0xD5
    ⟨.SET, .MR, .HL, .NONE, .NONE, 2, 16, 0⟩,  -- 0xD6
    ⟨.SET, .R, .A, .NONE, .NONE, 2, 8, 0⟩,  -- 0xD7
    ⟨.SET, .R, .B, .NONE, .NONE, 3, 8, 0⟩,  -- 0xD8
    ⟨.SET, .R, .C, .NONE, .NONE, 3, 8, 0⟩,  -- 0xD9
    ⟨.SET, .R, .D, .NONE, .NONE, 3, 8, 0⟩,  -- 0xDA
    ⟨.SET, .R, .E, .NONE, .NONE, 3, 8, 0⟩,  -- 0xDB
    ⟨.SET, .R, .H, .NONE, .NONE, 3, 8, 0⟩,  -- 0xDC
    ⟨.SET, .R, .L, .NONE, .NONE, 3, 8, 0⟩,  -- 0xDD
    ⟨.SET, .MR, .HL, .NONE, .NONE, 3, 16, 0⟩,  -- 0xDE
    ⟨.SET, .R, .A, .NONE, .NONE, 3, 8, 0⟩,  -- 0xDF
  ]

/-- Opcodes 0xE0 - 0xEF. -/
def cb_instructions_rowE : List Instruction :=
  [
    ⟨.SET, .R, .B, .NONE, .NONE, 4, 8, 0⟩,  -- 0xE0
    ⟨.SET, .R, .C, .NONE, .NONE, 4, 8, 0⟩,  -- 0xE1
    ⟨.SET, .R, .D, .NONE, .NONE, 4, 8, 0⟩,  -- 0xE2
    ⟨.SET, .R, .E, .NONE, .NONE, 4, 8, 0⟩,  -- 0xE3
    ⟨.SET, .R, .H, .NONE, .NONE, 4, 8, 0⟩,  -- 0xE4
    ⟨.SET, .R, .L, .NONE, .NONE, 4, 8, 0⟩,  -- 0xE5
    ⟨.SET, .MR, .HL, .NONE, .NONE, 4, 16, 0⟩,  -- 0xE6
    ⟨.SET, .R, .A, .NONE, .NONE, 4, 8, 0⟩,  -- 0xE7
    ⟨.SET, .R, .B, .NONE, .NONE, 5, 8, 0⟩,  -- 0xE8
    ⟨.SET, .R, .C, .NONE, .NONE, 5, 8, 0⟩,  -- 0xE9
    ⟨.SET, .R, .D, .NONE, .NONE, 5, 8, 0⟩,  -- 0xEA
    ⟨.SET, .R, .E, .NONE, .NONE, 5, 8, 0⟩,  -- 0xEB
    ⟨.SET, .R, .H, .NONE, .NONE, 5, 8, 0⟩,  -- 0xEC
    ⟨.SET, .R, .L, .NONE, .NONE, 5, 8, 0⟩,  -- 0xED
    ⟨.SET, .MR, .HL, .NONE, .NONE, 5, 16, 0⟩,  -- 0xEE
    ⟨.SET, .R, .A, .NONE, .NONE, 5, 8, 0⟩,  -- 0xEF
  ]

/-- Opcodes 0xF0 - 0xFF. -/
def cb_instructions_rowF : List Instruction :=
  [
    ⟨.SET, .R, .B, .NONE, .NONE, 6, 8, 0⟩,  -- 0xF0
    ⟨.SET, .R, .C, .NONE, .NONE, 6, 8, 0⟩,  -- 0xF1
    ⟨.SET, .R, .D, .NONE, .NONE, 6, 8, 0⟩,  -- 0xF2
    ⟨.SET, .R, .E, .NONE, .NONE, 6, 8, 0⟩,  -- 0xF3
    ⟨.SET, .R, .H, .NONE, .NONE, 6, 8, 0⟩,  -- 0xF4
    ⟨.SET, .R, .L, .NONE, .NONE, 6, 8, 0⟩,  -- 0xF5
    ⟨.SET, .MR, .HL, .NONE, .NONE, 6, 16, 0⟩,  -- 0xF6
    ⟨.SET, .R, .A, .NONE, .NONE, 6, 8, 0⟩,  -- 0xF7
    ⟨.SET, .R, .B, .NONE, .NONE, 7, 8, 0⟩,  -- 0xF8
    ⟨.SET, .R, .C, .NONE, .NONE, 7, 8, 0⟩,  -- 0xF9
    ⟨.SET, .R, .D, .NONE, .NONE, 7, 8, 0⟩,  -- 0xFA
    ⟨.SET, .R, .E, .NONE, .NONE, 7, 8, 0⟩,  -- 0xFB
    ⟨.SET, .R, .H, .NONE, .NONE, 7, 8, 0⟩,  -- 0xFC
    ⟨.SET, .R, .L, .NONE, .NONE, 7, 8, 0⟩,  -- 0xFD
    ⟨.SET, .MR, .HL, .NONE, .NONE, 7, 16, 0⟩,  -- 0xFE
    ⟨.SET, .R, .A, .NONE, .NONE, 7, 8, 0⟩  -- 0xFF
  ]

/-- The 256-entry CB-prefixed opcode table from
`Instructions::initialize_cb_instructions` (`instructions.cpp`). -/
def cb_instructions : List Instruction :=
  cb_instructions_row0 ++ cb_instructions_row1 ++ cb_instructions_row2 ++ cb_instructions_row3 ++ cb_instructions_row4 ++ cb_instructions_row5 ++ cb_instructions_row6 ++ cb_instructions_row7 ++ cb_instructions_row8 ++ cb_instructions_row9 ++ cb_instructions_rowA ++ cb_instructions_rowB ++ cb_instructions_rowC ++ cb_instructions_rowD ++ cb_instructions_rowE ++ cb_instructions_rowF

/-- `Instructions::get`. -/
def get (opcode : Nat) : Instruction := instructions.getD opcode default

/-- `Instructions::getCB` (declared "For CB-prefixed instructions"). -/
def getCB (opcode : Nat) : Instruction := cb_instructions.getD opcode default

end Instructions

/-! ## GPU palette mapping (`gpu.cpp`) -/

/-- `LCDMode` from `gpu.hpp`. -/
inductive LCDMode where
  | HBLANK | VBLANK | OAM | TRANSFER
  deriving DecidableEq, Repr

namespace GPU

/-- `GPU::getColorFromPalette` (`gpu.cpp` lines 910-926): extract the
2-bit colour value for `colorIdx` from an 8-bit palette register. -/
def getColorFromPalette (palette colorIdx : Nat) : Nat :=
  (palette >>> (colorIdx * 2)) &&& 0x03

/-- `GPU::getRGBColor` (`gpu.cpp` lines 928-959): convert a Game Boy
colour value (0-3) to ARGB8888.  The source comments say it uses
"extremely distinct colors to diagnose rendering issues". -/
def getRGBColor (colorValue : Nat) : Nat :=
  match colorValue with
  | 0 => 0xFFFF0000
  | 1 => 0xFF00FF00
  | 2 => 0xFF0000FF
  | 3 => 0xFFFFFFFF
  | _ => 0xFFFF00FF

end GPU

/-! ## Timer registers (`timer.cpp`)

The `Timer` object of `timer.cpp`; `div_counter` is a `uint16_t` and is
kept reduced modulo 2^16, the 8-bit registers are kept reduced modulo
2^8 by the operations below. -/

structure Timer where
  div_counter : Nat
  div : Nat
  tima : Nat
  tma : Nat
  tac : Nat
  interrupt_requested : Bool
  tima_reload_scheduled : Bool
  previous_bit_state : Bool
  deriving DecidableEq, Repr

namespace Timer

/-- `Timer::isTimerEnabled`: TAC bit 2. -/
def isTimerEnabled (t : Timer) : Bool := t.tac &&& 0x04 ≠ 0

/-- The multiplexer-bit sampling that `Timer::tick` and
`Timer::writeRegister` both perform: select a bit of `div_counter` by
TAC bits 0-1 (00 -> bit 9, 01 -> bit 3, 10 -> bit 5, 11 -> bit 7). -/
def selectedBit (tac div_counter : Nat) : Bool :=
  match tac &&& 0x03 with
  | 0 => div_counter &&& (1 <<< 9) ≠ 0
  | 1 => div_counter &&& (1 <<< 3) ≠ 0
  | 2 => div_counter &&& (1 <<< 5) ≠ 0
  | _ => div_counter &&& (1 <<< 7) ≠ 0

/-- `Timer::readRegister`. -/
def readRegister (t : Timer) (address : Nat) : Nat :=
  if address = 0xFF04 then t.div
  else if address = 0xFF05 then t.tima
  else if address = 0xFF06 then t.tma
  else if address = 0xFF07 then t.tac ||| 0xF8
  else 0xFF

/-- `Timer::writeRegister`.  Mirrors the C++ exactly: the old
multiplexer bit is sampled before the change, the new bit after, and a
1 -> 0 transition increments TIMA (scheduling a reload on overflow). -/
def writeRegister (t : Timer) (address value : Nat) : Timer :=
  let old_bit_state := t.isTimerEnabled && selectedBit t.tac t.div_counter
  if address = 0xFF04 then
    -- writing any value to DIV resets the internal counter to 0
    let t := { t with div_counter := 0, div := 0 }
    let new_bit_state := t.isTimerEnabled && selectedBit t.tac t.div_counter
    let t :=
      if old_bit_state && !new_bit_state then
        let tima := (t.tima + 1) % 256
        { t with tima := tima, tima_reload_scheduled := tima = 0 || t.tima_reload_scheduled }
      else t
    { t with previous_bit_state := new_bit_state }
  else if address = 0xFF05 then
    -- writing TIMA during the overflow-reload cycle cancels the reload
    { t with tima_reload_scheduled := false, tima := value }
  else if address = 0xFF06 then
    -- TMA written during the reload cycle is copied to TIMA immediately
    { t with tma := value, tima := if t.tima_reload_scheduled then value else t.tima }
  else if address = 0xFF07 then
    let new_bit_state := (value &&& 0x04 ≠ 0) && selectedBit value t.div_counter
    let t := { t with tac := value &&& 0x07 }
    let t :=
      if old_bit_state && !new_bit_state then
        let tima := (t.tima + 1) % 256
        { t with tima := tima, tima_reload_scheduled := tima = 0 || t.tima_reload_scheduled }
      else t
    { t with previous_bit_state := new_bit_state }
  else t

end Timer

/-! ## Cartridge memory-bank controllers (`cartridge.cpp`)

ROM and RAM are the `std::vector<uint8_t>` byte arrays; `List.getD _ _
0xFF` models the guarded pattern `if (i < v.size()) return v[i];
return 0xFF;` used throughout the MBC `read` functions.  Battery and
save-file handling touch only the host filesystem and are omitted. -/

/-- The wall-clock sample that `MBC3::updateRTC` obtains from
`std::localtime`.  The emulator samples the environment clock at call
time; it is modelled as part of the MBC3 state. -/
structure RTCNow where
  sec : Nat
  min : Nat
  hour : Nat
  yday : Nat
  deriving DecidableEq, Repr

/-- `ROMOnly` MBC state. -/
structure ROMOnly where
  rom : List Nat
  ram : List Nat
  ram_enabled : Bool
  deriving DecidableEq, Repr

namespace ROMOnly

/-- `ROMOnly::read`. -/
def read (m : ROMOnly) (addr : Nat) : Nat :=
  if addr ≤ 0x7FFF then
    m.rom.getD addr 0xFF
  else if 0xA000 ≤ addr ∧ addr ≤ 0xBFFF then
    if m.ram_enabled ∧ addr - 0xA000 < m.ram.length then
      m.ram.getD (addr - 0xA000) 0xFF
    else 0xFF
  else 0xFF

/-- `ROMOnly::write`. -/
def write (m : ROMOnly) (addr value : Nat) : ROMOnly :=
  if addr ≤ 0x7FFF then
    if addr ≤ 0x1FFF then { m with ram_enabled := value &&& 0x0F = 0x0A }
    else m
  else if 0xA000 ≤ addr ∧ addr ≤ 0xBFFF then
    if m.ram_enabled ∧ addr - 0xA000 < m.ram.length then
      { m with ram := m.ram.set (addr - 0xA000) value }
    else m
  else m

end ROMOnly

/-- `MBC1` state (`rom_bank`, `ram_bank`, `mode_select`, `multicart`).
The `battery` flag only affects save files and is omitted. -/
structure MBC1 where
  rom : List Nat
  ram : List Nat
  ram_enabled : Bool
  rom_bank : Nat
  ram_bank : Nat
  mode_select : Bool
  multicart : Bool
  deriving DecidableEq, Repr

namespace MBC1

/-- `MBC1::getRomBankStart`. -/
def getRomBankStart (m : MBC1) : Nat :=
  let bank :=
    if m.multicart then
      let effective_rom_bank := m.rom_bank &&& 0x0F
      let bank := (m.ram_bank <<< 4) ||| effective_rom_bank
      if effective_rom_bank = 0 then bank + 1 else bank
    else
      let bank := (m.ram_bank <<< 5) ||| m.rom_bank
      if bank &&& 0x1F = 0 then bank + 1 else bank
  bank * 0x4000

/-- `MBC1::getRamBankStart`. -/
def getRamBankStart (m : MBC1) : Nat :=
  if m.mode_select ∧ m.ram.length > 0x2000 then m.ram_bank * 0x2000 else 0

/-- `MBC1::read`. -/
def read (m : MBC1) (addr : Nat) : Nat :=
  if addr ≤ 0x3FFF then
    let rom_addr :=
      if m.mode_select then
        if m.multicart then (m.ram_bank <<< 18) ||| (addr &&& 0x3FFF)
        else (m.ram_bank <<< 19) ||| (addr &&& 0x3FFF)
      else addr
    m.rom.getD rom_addr 0xFF
  else if 0x4000 ≤ addr ∧ addr ≤ 0x7FFF then
    m.rom.getD (m.getRomBankStart + (addr - 0x4000)) 0xFF
  else if 0xA000 ≤ addr ∧ addr ≤ 0xBFFF then
    if m.ram_enabled ∧ m.ram ≠ [] then
      let ram_addr :=
        if m.mode_select then m.getRamBankStart + (addr - 0xA000)
        else addr - 0xA000
      m.ram.getD ram_addr 0xFF
    else 0xFF
  else 0xFF

/-- `MBC1::write`. -/
def write (m : MBC1) (addr value : Nat) : MBC1 :=
  if addr ≤ 0x1FFF then
    { m with ram_enabled := value &&& 0x0F = 0x0A }
  else if 0x2000 ≤ addr ∧ addr ≤ 0x3FFF then
    let rom_bank := value &&& 0x1F
    { m with rom_bank := if rom_bank = 0 then 1 else rom_bank }
  else if 0x4000 ≤ addr ∧ addr ≤ 0x5FFF then
    { m with ram_bank := value &&& 0x03 }
  else if 0x6000 ≤ addr ∧ addr ≤ 0x7FFF then
    { m with mode_select := value &&& 0x01 ≠ 0 }
  else if 0xA000 ≤ addr ∧ addr ≤ 0xBFFF then
    if m.ram_enabled ∧ m.ram ≠ [] then
      let ram_addr :=
        if m.mode_select then m.getRamBankStart + (addr - 0xA000)
        else addr - 0xA000
      if ram_addr < m.ram.length then { m with ram := m.ram.set ram_addr value }
      else m
    else m
  else m

end MBC1

/-- `MBC2` state. -/
structure MBC2 where
  rom : List Nat
  ram : List Nat
  ram_enabled : Bool
  rom_bank : Nat
  deriving DecidableEq, Repr

namespace MBC2

/-- `MBC2::read`.  The 512-nibble RAM access `ram[addr - 0xA000]` is
unguarded in the source (the loader always sizes MBC2 RAM to 512);
out-of-range is modelled as 0xFF. -/
def read (m : MBC2) (addr : Nat) : Nat :=
  if addr ≤ 0x3FFF then
    m.rom.getD addr 0xFF
  else if 0x4000 ≤ addr ∧ addr ≤ 0x7FFF then
    m.rom.getD (m.rom_bank * 0x4000 + (addr - 0x4000)) 0xFF
  else if 0xA000 ≤ addr ∧ addr ≤ 0xA1FF then
    if m.ram_enabled then (m.ram.getD (addr - 0xA000) 0xFF) &&& 0x0F
    else 0xFF
  else if 0xA200 ≤ addr ∧ addr ≤ 0xBFFF then 0x00
  else 0xFF

/-- `MBC2::write`. -/
def write (m : MBC2) (addr value : Nat) : MBC2 :=
  if addr ≤ 0x3FFF then
    if addr &&& 0x0100 ≠ 0 then
      let rom_bank := value &&& 0x0F
      { m with rom_bank := if rom_bank = 0 then 1 else rom_bank }
    else
      { m with ram_enabled := value &&& 0x0F = 0x0A }
  else if 0xA000 ≤ addr ∧ addr ≤ 0xA1FF then
    if m.ram_enabled then { m with ram := m.ram.set (addr - 0xA000) (value &&& 0x0F) }
    else m
  else m

end MBC2

/-- `MBC3` state, including the live and latched RTC register sets, the
latch edge-detector `rtc_latch`, and the environment clock sample
`now` used by `updateRTC`. -/
structure MBC3 where
  rom : List Nat
  ram : List Nat
  ram_enabled : Bool
  rom_bank : Nat
  ram_bank : Nat
  rtc : Bool
  rtc_latch : Bool
  rtc_s : Nat
  rtc_m : Nat
  rtc_h : Nat
  rtc_dl : Nat
  rtc_dh : Nat
  latch_rtc_s : Nat
  latch_rtc_m : Nat
  latch_rtc_h : Nat
  latch_rtc_dl : Nat
  latch_rtc_dh : Nat
  now : RTCNow
  deriving DecidableEq, Repr

namespace MBC3

/-- `MBC3::updateRTC`: refresh the live RTC registers from the wall
clock unless the halt flag (DH bit 6) is set. -/
def updateRTC (m : MBC3) : MBC3 :=
  if m.rtc_dh &&& 0x40 ≠ 0 then m
  else
    let days := m.now.yday
    let rtc_dh := if days > 255 then m.rtc_dh ||| 0x01 else m.rtc_dh &&& 0xFE
    let rtc_dh := if days > 511 then rtc_dh ||| 0x80 else rtc_dh
    { m with rtc_s := m.now.sec, rtc_m := m.now.min, rtc_h := m.now.hour,
             rtc_dl := days &&& 0xFF, rtc_dh := rtc_dh }

/-- `MBC3::latchRTC` (`cartridge.cpp` lines 639-651): update the live
registers (when not halted) and copy them into the latched shadow set. -/
def latchRTC (m : MBC3) : MBC3 :=
  let m := if m.rtc_dh &&& 0x40 = 0 then m.updateRTC else m
  { m with latch_rtc_s := m.rtc_s, latch_rtc_m := m.rtc_m, latch_rtc_h := m.rtc_h,
           latch_rtc_dl := m.rtc_dl, latch_rtc_dh := m.rtc_dh }

/-- `MBC3::read` (`cartridge.cpp` lines 515-562). -/
def read (m : MBC3) (addr : Nat) : Nat :=
  if addr ≤ 0x3FFF then
    m.rom.getD addr 0xFF
  else if 0x4000 ≤ addr ∧ addr ≤ 0x7FFF then
    m.rom.getD (m.rom_bank * 0x4000 + (addr - 0x4000)) 0xFF
  else if 0xA000 ≤ addr ∧ addr ≤ 0xBFFF then
    if m.ram_enabled then
      if m.rtc ∧ 0x08 ≤ m.ram_bank ∧ m.ram_bank ≤ 0x0C then
        if m.ram_bank = 0x08 then m.latch_rtc_s
        else if m.ram_bank = 0x09 then m.latch_rtc_m
        else if m.ram_bank = 0x0A then m.latch_rtc_h
        else if m.ram_bank = 0x0B then m.latch_rtc_dl
        else m.latch_rtc_dh
      else if m.ram_bank ≤ 0x07 ∧ m.ram ≠ [] then
        m.ram.getD (m.ram_bank * 0x2000 + (addr - 0xA000)) 0xFF
      else 0xFF
    else 0xFF
  else 0xFF

/-- `MBC3::write` (`cartridge.cpp` lines 564-637), including the RTC
latch edge detector on 0x6000-0x7FFF. -/
def write (m : MBC3) (addr value : Nat) : MBC3 :=
  if addr ≤ 0x1FFF then
    { m with ram_enabled := value &&& 0x0F = 0x0A }
  else if 0x2000 ≤ addr ∧ addr ≤ 0x3FFF then
    let rom_bank := value &&& 0x7F
    { m with rom_bank := if rom_bank = 0 then 1 else rom_bank }
  else if 0x4000 ≤ addr ∧ addr ≤ 0x5FFF then
    { m with ram_bank := value }
  else if 0x6000 ≤ addr ∧ addr ≤ 0x7FFF then
    if m.rtc then
      if value = 0x00 ∧ m.rtc_latch = false then
        { m with rtc_latch := true }
      else if value = 0x01 ∧ m.rtc_latch = true then
        { m.latchRTC with rtc_latch := false }
      else
        { m with rtc_latch := false }
    else m
  else if 0xA000 ≤ addr ∧ addr ≤ 0xBFFF then
    if m.ram_enabled then
      if m.rtc ∧ 0x08 ≤ m.ram_bank ∧ m.ram_bank ≤ 0x0C then
        if m.ram_bank = 0x08 then { m with rtc_s := value &&& 0x3F }
        else if m.ram_bank = 0x09 then { m with rtc_m := value &&& 0x3F }
        else if m.ram_bank = 0x0A then { m with rtc_h := value &&& 0x1F }
        else if m.ram_bank = 0x0B then { m with rtc_dl := value }
        else { m with rtc_dh := value &&& 0xC1 }
      else if m.ram_bank ≤ 0x07 ∧ m.ram ≠ [] then
        let ram_addr := m.ram_bank * 0x2000 + (addr - 0xA000)
        if ram_addr < m.ram.length then { m with ram := m.ram.set ram_addr value }
        else m
      else m
    else m
  else m

end MBC3

/-- `MBC5` state.  The rumble motor itself is commented out in the
source; only the register masking differs for rumble carts. -/
structure MBC5 where
  rom : List Nat
  ram : List Nat
  ram_enabled : Bool
  rom_bank : Nat
  ram_bank : Nat
  rumble : Bool
  deriving DecidableEq, Repr

namespace MBC5

/-- `MBC5::read` (`cartridge.cpp` lines 849-882). -/
def read (m : MBC5) (addr : Nat) : Nat :=
  if addr ≤ 0x3FFF then
    m.rom.getD addr 0xFF
  else if 0x4000 ≤ addr ∧ addr ≤ 0x7FFF then
    m.rom.getD (m.rom_bank * 0x4000 + (addr - 0x4000)) 0xFF
  else if 0xA000 ≤ addr ∧ addr ≤ 0xBFFF then
    if m.ram_enabled ∧ m.ram ≠ [] then
      m.ram.getD (m.ram_bank * 0x2000 + (addr - 0xA000)) 0xFF
    else 0xFF
  else 0xFF

/-- `MBC5::write`. -/
def write (m : MBC5) (addr value : Nat) : MBC5 :=
  if addr ≤ 0x1FFF then
    { m with ram_enabled := value &&& 0x0F = 0x0A }
  else if 0x2000 ≤ addr ∧ addr ≤ 0x2FFF then
    { m with rom_bank := (m.rom_bank &&& 0x100) ||| value }
  else if 0x3000 ≤ addr ∧ addr ≤ 0x3FFF then
    { m with rom_bank := (m.rom_bank &&& 0xFF) ||| ((value &&& 0x01) <<< 8) }
  else if 0x4000 ≤ addr ∧ addr ≤ 0x5FFF then
    if m.rumble then { m with ram_bank := value &&& 0x07 }
    else { m with ram_bank := value &&& 0x0F }
  else if 0xA000 ≤ addr ∧ addr ≤ 0xBFFF then
    if m.ram_enabled ∧ m.ram ≠ [] then
      let ram_addr := m.ram_bank * 0x2000 + (addr - 0xA000)
      if ram_addr < m.ram.length then { m with ram := m.ram.set ram_addr value }
      else m
    else m
  else m

end MBC5

/-- The polymorphic `mbc` held by `Cartridge` (`createMBC` picks the
variant from the cartridge-type header byte); a sum type here. -/
inductive Cart where
  | romOnly (s : ROMOnly)
  | mbc1 (s : MBC1)
  | mbc2 (s : MBC2)
  | mbc3 (s : MBC3)
  | mbc5 (s : MBC5)
  deriving DecidableEq, Repr

namespace Cart

/-- `Cartridge::read`: virtual dispatch to the active MBC. -/
def read (c : Cart) (addr : Nat) : Nat :=
  match c with
  | .romOnly s => s.read addr
  | .mbc1 s => s.read addr
  | .mbc2 s => s.read addr
  | .mbc3 s => s.read addr
  | .mbc5 s => s.read addr

/-- `Cartridge::write`: virtual dispatch to the active MBC. -/
def write (c : Cart) (addr value : Nat) : Cart :=
  match c with
  | .romOnly s => .romOnly (s.write addr value)
  | .mbc1 s => .mbc1 (s.write addr value)
  | .mbc2 s => .mbc2 (s.write addr value)
  | .mbc3 s => .mbc3 (s.write addr value)
  | .mbc5 s => .mbc5 (s.write addr value)

end Cart

/-! ## Memory bus (`memory.cpp`)

The fixed-size `std::array<uint8_t, N>` regions are modelled as
functions from index to byte; `fupd` is a pointwise update.  `gpuMode`
models the nullable `GPU*` (`none` = null) together with the value
`gpu->getCurrentMode()` would return.  The debug-only counters
`vram_write_counter` / `write_counter` and all `std::cout` logging are
omitted; the Tetris-compatibility byte written into HRAM by the
constructor is part of the initial state, not of `read`/`write`. -/

/-- Pointwise function update (models a `std::array` element store). -/
def fupd (f : Nat → Nat) (i v : Nat) : Nat → Nat :=
  fun j => if j = i then v else f j

structure MemoryBus where
  vram : Nat → Nat
  wram : Nat → Nat
  oam : Nat → Nat
  io_regs : Nat → Nat
  hram : Nat → Nat
  ie_register : Nat
  cart : Cart
  timer : Timer
  gpuMode : Option LCDMode
  joypad_state : Nat
  joypad_select : Nat

namespace MemoryBus

/-- `MemoryBus::read`.  The trailing `% 256` models the `uint8_t`
return type.  In the VRAM and OAM mode-restricted branches the source
returns the stored byte in *both* branches: the hardware-accurate
`return 0xFF;` lines are commented out there ("IMPORTANT: For
debugging - always allow VRAM access regardless of LCD mode"). -/
def read (b : MemoryBus) (addr : Nat) : Nat :=
  (if addr < 0x8000 then b.cart.read addr
   else if 0x8000 ≤ addr ∧ addr ≤ 0x9FFF then
     if b.gpuMode = some LCDMode.TRANSFER then
       -- debug bypass: the Mode 3 blocked read still returns VRAM
       b.vram (addr - 0x8000)
     else
       b.vram (addr - 0x8000)
   else if 0xA000 ≤ addr ∧ addr ≤ 0xBFFF then b.cart.read addr
   else if 0xC000 ≤ addr ∧ addr ≤ 0xDFFF then b.wram (addr - 0xC000)
   else if 0xE000 ≤ addr ∧ addr ≤ 0xFDFF then b.wram (addr - 0xE000)
   else if 0xFE00 ≤ addr ∧ addr ≤ 0xFE9F then
     if b.gpuMode = some LCDMode.OAM ∨ b.gpuMode = some LCDMode.TRANSFER then
       -- debug bypass: the Modes 2-3 blocked read still returns OAM
       b.oam (addr - 0xFE00)
     else
       b.oam (addr - 0xFE00)
   else if 0xFEA0 ≤ addr ∧ addr ≤ 0xFEFF then 0xFF
   else if 0xFF00 ≤ addr ∧ addr ≤ 0xFF7F then
     if 0xFF04 ≤ addr ∧ addr ≤ 0xFF07 then b.timer.readRegister addr
     else if addr = 0xFF00 then
       let result := b.joypad_select &&& 0xF0
       if b.joypad_select &&& 0x20 = 0 then result ||| ((b.joypad_state >>> 4) &&& 0x0F)
       else if b.joypad_select &&& 0x10 = 0 then result ||| (b.joypad_state &&& 0x0F)
       else result ||| 0x0F
     else b.io_regs (addr - 0xFF00)
   else if 0xFF80 ≤ addr ∧ addr ≤ 0xFFFE then b.hram (addr - 0xFF80)
   else if addr = 0xFFFF then b.ie_register
   else 0xFF) % 256

/-- `MemoryBus::performDMATransfer`: copy 0xXX00..0xXX9F into OAM
through `read` (the source does this instantly). -/
def performDMATransfer (b : MemoryBus) (value : Nat) : MemoryBus :=
  let source := (value % 256) <<< 8
  (List.range 0xA0).foldl
    (fun b i => { b with oam := fupd b.oam i (b.read (source + i)) }) b

/-- `MemoryBus::write`.  As with `read`, the Mode 3 VRAM gate and the
Modes 2-3 OAM gate are bypassed in the source ("DEBUGGING: Temporarily
allow..."): the store happens in both branches. -/
def write (b : MemoryBus) (addr value : Nat) : MemoryBus :=
  if addr < 0x8000 then { b with cart := b.cart.write addr value }
  else if 0x8000 ≤ addr ∧ addr ≤ 0x9FFF then
    if b.gpuMode = some LCDMode.TRANSFER then
      -- debug bypass: the Mode 3 blocked write still lands
      { b with vram := fupd b.vram (addr - 0x8000) value }
    else
      { b with vram := fupd b.vram (addr - 0x8000) value }
  else if 0xA000 ≤ addr ∧ addr ≤ 0xBFFF then { b with cart := b.cart.write addr value }
  else if 0xC000 ≤ addr ∧ addr ≤ 0xDFFF then { b with wram := fupd b.wram (addr - 0xC000) value }
  else if 0xE000 ≤ addr ∧ addr ≤ 0xFDFF then { b with wram := fupd b.wram (addr - 0xE000) value }
  else if 0xFE00 ≤ addr ∧ addr ≤ 0xFE9F then
    if b.gpuMode = some LCDMode.OAM ∨ b.gpuMode = some LCDMode.TRANSFER then
      -- debug bypass: the Modes 2-3 blocked write still lands
      { b with oam := fupd b.oam (addr - 0xFE00) value }
    else
      { b with oam := fupd b.oam (addr - 0xFE00) value }
  else if 0xFEA0 ≤ addr ∧ addr ≤ 0xFEFF then b
  else if 0xFF00 ≤ addr ∧ addr ≤ 0xFF7F then
    if 0xFF04 ≤ addr ∧ addr ≤ 0xFF07 then
      let b := { b with timer := b.timer.writeRegister addr value }
      if addr ≠ 0xFF04 then { b with io_regs := fupd b.io_regs (addr - 0xFF00) value }
      else { b with io_regs := fupd b.io_regs (addr - 0xFF00) 0 }
    else if addr = 0xFF00 then
      { b with joypad_select := value &&& 0x30,
               io_regs := fupd b.io_regs 0 value }
    else if addr = 0xFF46 then
      let b := b.performDMATransfer value
      { b with io_regs := fupd b.io_regs (0xFF46 - 0xFF00) value }
    else if addr = 0xFF44 then
      { b with io_regs := fupd b.io_regs (0xFF44 - 0xFF00) 0 }
    else
      let b := { b with io_regs := fupd b.io_regs (addr - 0xFF00) value }
      match b.gpuMode with
      | some _ =>
        if addr = 0xFF40 then
          -- the source reads io_regs[LCDC] *after* storing the new value,
          -- so was_enabled is computed from the value just written
          let lcd_enabled := value &&& 0x80 ≠ 0
          let was_enabled := b.io_regs (0xFF40 - 0xFF00) &&& 0x80 ≠ 0
          if !was_enabled ∧ lcd_enabled then
            { b with io_regs := fupd b.io_regs (0xFF44 - 0xFF00) 0 }
          else b
        else b
      | none => b
  else if 0xFF80 ≤ addr ∧ addr ≤ 0xFFFE then { b with hram := fupd b.hram (addr - 0xFF80) value }
  else if addr = 0xFFFF then { b with ie_register := value }
  else b

/-- `MemoryBus::write16`: little-endian 16-bit store. -/
def write16 (b : MemoryBus) (address value : Nat) : MemoryBus :=
  let b := b.write address (value &&& 0xFF)
  b.write ((address + 1) % 65536) (value >>> 8)

/-- `MemoryBus::read16`: little-endian 16-bit load. -/
def read16 (b : MemoryBus) (address : Nat) : Nat :=
  b.read address ||| (b.read ((address + 1) % 65536) <<< 8)

end MemoryBus

namespace Timer

/-- One iteration of the per-cycle loop body of `Timer::tick`
(`timer.cpp` lines 30-76).  The timer reads and writes the IF register
through the bus it is wired to, so the step acts on the whole bus. -/
def tickOne (b : MemoryBus) : MemoryBus :=
  -- handle a TIMA reload scheduled in the previous cycle
  let b :=
    if b.timer.tima_reload_scheduled then
      let b := { b with timer := { b.timer with
                   tima := b.timer.tma,
                   tima_reload_scheduled := false,
                   interrupt_requested := true } }
      let if_value := b.read 0xFF0F
      b.write 0xFF0F (if_value ||| 0x04)
    else b
  -- increment the 16-bit system counter; DIV is its upper 8 bits
  let t := b.timer
  let t := { t with div_counter := (t.div_counter + 1) % 65536 }
  let t := { t with div := t.div_counter >>> 8 }
  let current_bit_state := t.isTimerEnabled && selectedBit t.tac t.div_counter
  -- falling edge detector increments TIMA; overflow schedules a reload
  let t :=
    if t.previous_bit_state && !current_bit_state then
      let tima := (t.tima + 1) % 256
      let t := { t with tima := tima }
      if tima = 0 then { t with tima_reload_scheduled := true } else t
    else t
  { b with timer := { t with previous_bit_state := current_bit_state } }

/-- `Timer::tick(cycles)`: run the loop body `cycles` times. -/
def tickCycles (b : MemoryBus) : Nat → MemoryBus
  | 0 => b
  | n + 1 => tickCycles (tickOne b) n

end Timer

/-! ## CPU (`cpu.hpp`, `cpu.cpp`, `cpu_registers.cpp`, `cpu_instructions.cpp`)

The eight 8-bit registers are stored separately; the union views
AF/BC/DE/HL are the getter/setter pairs below (low byte = f/c/e/l).
`uint8_t` / `uint16_t` assignments in the C++ are modelled with
`% 256` / `% 65536` wherever the assigned expression can exceed the
type; `--x` on a `uint16_t` becomes `(x + 65535) % 65536`.  The
`int8_t` casts of relative offsets use `int8val`.  All `std::cout` /
`printf` debug logging is omitted.

The source declares `executeJP/JR/CALL/RET` as returning `bool` in
`cpu.hpp` (and `cpu.cpp` assigns their result to `branch_taken`) while
the definitions in `cpu_instructions.cpp` are written `void`; they are
modelled as returning the `shouldJump`-style local that the header and
call sites evidently intend. -/

/-- The value of a `static_cast<int8_t>` of a byte. -/
def int8val (v : Nat) : Int :=
  if 128 ≤ v then (v : Int) - 256 else (v : Int)

/-- CPU register file (`CPU::Registers` in `cpu.hpp`). -/
structure Registers where
  a : Nat
  f : Nat
  b : Nat
  c : Nat
  d : Nat
  e : Nat
  h : Nat
  l : Nat
  sp : Nat
  pc : Nat

/-- Union view: `af` (a = high byte, f = low byte). -/
def Registers.af (r : Registers) : Nat := (r.a <<< 8) ||| r.f

/-- Union view: `bc`. -/
def Registers.bc (r : Registers) : Nat := (r.b <<< 8) ||| r.c

/-- Union view: `de`. -/
def Registers.de (r : Registers) : Nat := (r.d <<< 8) ||| r.e

/-- Union view: `hl`. -/
def Registers.hl (r : Registers) : Nat := (r.h <<< 8) ||| r.l

/-- Store through the union view `af = v` (f gets the low byte). -/
def Registers.setAF (r : Registers) (v : Nat) : Registers :=
  { r with a := (v >>> 8) % 256, f := v % 256 }

/-- Store through the union view `bc = v`. -/
def Registers.setBC (r : Registers) (v : Nat) : Registers :=
  { r with b := (v >>> 8) % 256, c := v % 256 }

/-- Store through the union view `de = v`. -/
def Registers.setDE (r : Registers) (v : Nat) : Registers :=
  { r with d := (v >>> 8) % 256, e := v % 256 }

/-- Store through the union view `hl = v`. -/
def Registers.setHL (r : Registers) (v : Nat) : Registers :=
  { r with h := (v >>> 8) % 256, l := v % 256 }

/-- The CPU object (`cpu.hpp`) together with the bus it references. -/
structure CPUState where
  regs : Registers
  cycles : Nat
  pending_cycles : Nat
  current_opcode : Nat
  halted : Bool
  stopped : Bool
  current_instruction : Instruction
  immediate_value : Nat
  ime : Bool
  halt_bug_active : Bool
  debug_instruction_count : Nat
  bus : MemoryBus

namespace CPU

/-- Flag masks from `cpu.hpp`. -/
def FLAG_Z : Nat := 0x80

/-- Subtract flag mask. -/
def FLAG_N : Nat := 0x40

/-- Half-carry flag mask. -/
def FLAG_H : Nat := 0x20

/-- Carry flag mask. -/
def FLAG_C : Nat := 0x10

/-- `CPU::getFlag`. -/
def getFlag (s : CPUState) (flag : Nat) : Bool := s.regs.f &&& flag ≠ 0

/-- `CPU::setFlag`. -/
def setFlag (s : CPUState) (flag : Nat) (value : Bool) : CPUState :=
  if value then { s with regs := { s.regs with f := s.regs.f ||| flag } }
  else { s with regs := { s.regs with f := s.regs.f &&& (0xFF ^^^ flag) } }

/-- `memory.read` as seen from the CPU. -/
def mread (s : CPUState) (addr : Nat) : Nat := s.bus.read addr

/-- `memory.write` as seen from the CPU. -/
def mwrite (s : CPUState) (addr value : Nat) : CPUState :=
  { s with bus := s.bus.write addr value }

/-- `memory.write16` as seen from the CPU. -/
def mwrite16 (s : CPUState) (addr value : Nat) : CPUState :=
  { s with bus := s.bus.write16 addr value }

/-- `CPU::getRegister8Bit` (`cpu_registers.cpp`). -/
def getRegister8Bit (s : CPUState) (reg : RegType) : Nat :=
  match reg with
  | .A => s.regs.a
  | .B => s.regs.b
  | .C => s.regs.c
  | .D => s.regs.d
  | .E => s.regs.e
  | .H => s.regs.h
  | .L => s.regs.l
  | .F => s.regs.f
  | _ => 0

/-- `CPU::setRegister8Bit`; the `uint8_t value` parameter is modelled
by the `% 256`. -/
def setRegister8Bit (s : CPUState) (reg : RegType) (value : Nat) : CPUState :=
  let value := value % 256
  match reg with
  | .A => { s with regs := { s.regs with a := value } }
  | .B => { s with regs := { s.regs with b := value } }
  | .C => { s with regs := { s.regs with c := value } }
  | .D => { s with regs := { s.regs with d := value } }
  | .E => { s with regs := { s.regs with e := value } }
  | .H => { s with regs := { s.regs with h := value } }
  | .L => { s with regs := { s.regs with l := value } }
  | .F => { s with regs := { s.regs with f := value &&& 0xF0 } }
  | _ => s

/-- `CPU::getRegister16Bit`. -/
def getRegister16Bit (s : CPUState) (reg : RegType) : Nat :=
  match reg with
  | .AF => s.regs.af
  | .BC => s.regs.bc
  | .DE => s.regs.de
  | .HL => s.regs.hl
  | .SP => s.regs.sp
  | .PC => s.regs.pc
  | _ => 0

/-- `CPU::setRegister16Bit`; the `uint16_t value` parameter is
modelled by the `% 65536`. -/
def setRegister16Bit (s : CPUState) (reg : RegType) (value : Nat) : CPUState :=
  let value := value % 65536
  match reg with
  | .AF => { s with regs := s.regs.setAF (value &&& 0xFFF0) }
  | .BC => { s with regs := s.regs.setBC value }
  | .DE => { s with regs := s.regs.setDE value }
  | .HL => { s with regs := s.regs.setHL value }
  | .SP => { s with regs := { s.regs with sp := value } }
  | .PC => { s with regs := { s.regs with pc := value } }
  | _ => s

/-- `CPU::isRegister16Bit`. -/
def isRegister16Bit (reg : RegType) : Bool :=
  reg = RegType.AF || reg = RegType.BC || reg = RegType.DE ||
  reg = RegType.HL || reg = RegType.SP || reg = RegType.PC

/-- `registers.pc++` (`uint16_t` increment). -/
def incPC (s : CPUState) : CPUState :=
  { s with regs := { s.regs with pc := (s.regs.pc + 1) % 65536 } }

/-- `CPU::fetch_adress` (sic): increment PC past the opcode, then
fetch immediates per addressing mode (little-endian for 16-bit). -/
def fetch_adress (s : CPUState) : CPUState :=
  let s := incPC s
  match s.current_instruction.addr_mode with
  | .R_D8 | .MR_D8 | .D8 =>
    let s := { s with immediate_value := mread s s.regs.pc }
    incPC s
  | .R_D16 | .D16 | .D16_R | .A16_R | .R_A16 =>
    let s := { s with immediate_value := mread s s.regs.pc }
    let s := incPC s
    let s := { s with immediate_value := s.immediate_value ||| (mread s s.regs.pc <<< 8) }
    incPC s
  | .R_A8 | .A8_R =>
    let s := { s with immediate_value := mread s s.regs.pc }
    incPC s
  | _ => s

/-- `CPU::executeLD` (`cpu_instructions.cpp`). -/
def executeLD (s : CPUState) : CPUState :=
  match s.current_instruction.addr_mode with
  | .R_R => setRegister8Bit s s.current_instruction.reg1 (getRegister8Bit s s.current_instruction.reg2)
  | .R_D8 => setRegister8Bit s s.current_instruction.reg1 (s.immediate_value &&& 0xFF)
  | .R_D16 => setRegister16Bit s s.current_instruction.reg1 s.immediate_value
  | .R_MR =>
    let addr := getRegister16Bit s s.current_instruction.reg2
    setRegister8Bit s s.current_instruction.reg1 (mread s addr)
  | .MR_R =>
    let addr := getRegister16Bit s s.current_instruction.reg1
    mwrite s addr (getRegister8Bit s s.current_instruction.reg2)
  | .R_HLI =>
    let s := setRegister8Bit s s.current_instruction.reg1 (mread s s.regs.hl)
    { s with regs := s.regs.setHL ((s.regs.hl + 1) % 65536) }
  | .R_HLD =>
    let s := setRegister8Bit s s.current_instruction.reg1 (mread s s.regs.hl)
    { s with regs := s.regs.setHL ((s.regs.hl + 65535) % 65536) }
  | .HLI_R =>
    let s := mwrite s s.regs.hl (getRegister8Bit s s.current_instruction.reg2)
    { s with regs := s.regs.setHL ((s.regs.hl + 1) % 65536) }
  | .HLD_R =>
    let s := mwrite s s.regs.hl (getRegister8Bit s s.current_instruction.reg2)
    { s with regs := s.regs.setHL ((s.regs.hl + 65535) % 65536) }
  | .R_A8 =>
    setRegister8Bit s s.current_instruction.reg1 (mread s (0xFF00 + (s.immediate_value &&& 0xFF)))
  | .A8_R =>
    mwrite s (0xFF00 + (s.immediate_value &&& 0xFF)) (getRegister8Bit s s.current_instruction.reg2)
  | .R_A16 =>
    setRegister8Bit s s.current_instruction.reg1 (mread s s.immediate_value)
  | .A16_R =>
    mwrite s s.immediate_value (getRegister8Bit s s.current_instruction.reg2)
  | .HL_SPR =>
    let offset := s.immediate_value &&& 0xFF
    let sp := s.regs.sp
    let s := setFlag s FLAG_H (((sp &&& 0xF) + (offset &&& 0xF)) > 0xF)
    let s := setFlag s FLAG_C (((sp &&& 0xFF) + (offset &&& 0xFF)) > 0xFF)
    let s := setFlag s FLAG_N false
    let s := setFlag s FLAG_Z false
    { s with regs := s.regs.setHL (((sp : Int) + int8val offset).emod 65536).toNat }
  | .D16_R =>
    if s.current_instruction.reg2 = RegType.SP then
      mwrite16 s s.immediate_value s.regs.sp
    else s
  | _ => s

/-- `CPU::executeINC`. -/
def executeINC (s : CPUState) : CPUState :=
  if isRegister16Bit s.current_instruction.reg1 then
    setRegister16Bit s s.current_instruction.reg1
      ((getRegister16Bit s s.current_instruction.reg1 + 1) % 65536)
  else if s.current_instruction.addr_mode = AddrMode.MR then
    let addr := getRegister16Bit s s.current_instruction.reg1
    let value := mread s addr
    let s := setFlag s FLAG_N false
    let s := setFlag s FLAG_H ((value &&& 0x0F) = 0x0F)
    let value := (value + 1) % 256
    let s := mwrite s addr value
    setFlag s FLAG_Z (value = 0)
  else
    let value := getRegister8Bit s s.current_instruction.reg1
    let s := setFlag s FLAG_N false
    let s := setFlag s FLAG_H ((value &&& 0x0F) = 0x0F)
    let value := (value + 1) % 256
    let s := setRegister8Bit s s.current_instruction.reg1 value
    setFlag s FLAG_Z (value = 0)

/-- `CPU::executeDEC`. -/
def executeDEC (s : CPUState) : CPUState :=
  if isRegister16Bit s.current_instruction.reg1 then
    setRegister16Bit s s.current_instruction.reg1
      ((getRegister16Bit s s.current_instruction.reg1 + 65535) % 65536)
  else if s.current_instruction.addr_mode = AddrMode.MR then
    let addr := getRegister16Bit s s.current_instruction.reg1
    let value := mread s addr
    let s := setFlag s FLAG_N true
    let s := setFlag s FLAG_H ((value &&& 0x0F) = 0x00)
    let value := (value + 255) % 256
    let s := mwrite s addr value
    setFlag s FLAG_Z (value = 0)
  else
    let value := getRegister8Bit s s.current_instruction.reg1
    let s := setFlag s FLAG_N true
    let s := setFlag s FLAG_H ((value &&& 0x0F) = 0x00)
    let value := (value + 255) % 256
    let s := setRegister8Bit s s.current_instruction.reg1 value
    setFlag s FLAG_Z (value = 0)

/-- The shared operand fetch of the 8-bit ALU instructions: memory at
`reg2` for `R_MR`, the immediate for `R_D8`, else register `reg2`. -/
def aluOperand (s : CPUState) : Nat :=
  if s.current_instruction.addr_mode = AddrMode.R_MR then
    mread s (getRegister16Bit s s.current_instruction.reg2)
  else if s.current_instruction.addr_mode = AddrMode.R_D8 then
    s.immediate_value &&& 0xFF
  else
    getRegister8Bit s s.current_instruction.reg2

/-- `CPU::executeADD`.  Note: `ADD SP,r8` (opcode 0xE8, reg1 = SP)
matches neither branch of the source and is a no-op there. -/
def executeADD (s : CPUState) : CPUState :=
  if s.current_instruction.reg1 = RegType.HL ∧ isRegister16Bit s.current_instruction.reg2 then
    let hl := s.regs.hl
    let value := getRegister16Bit s s.current_instruction.reg2
    let s := setFlag s FLAG_N false
    let s := setFlag s FLAG_H (((hl &&& 0x0FFF) + (value &&& 0x0FFF)) > 0x0FFF)
    let s := setFlag s FLAG_C (hl + value > 0xFFFF)
    { s with regs := s.regs.setHL ((hl + value) % 65536) }
  else if s.current_instruction.reg1 = RegType.A then
    let a := s.regs.a
    let value := aluOperand s
    let s := setFlag s FLAG_N false
    let s := setFlag s FLAG_H (((a &&& 0x0F) + (value &&& 0x0F)) > 0x0F)
    let s := setFlag s FLAG_C (a + value > 0xFF)
    let s := { s with regs := { s.regs with a := (a + value) % 256 } }
    setFlag s FLAG_Z (s.regs.a = 0)
  else s

/-- `CPU::executeSUB`. -/
def executeSUB (s : CPUState) : CPUState :=
  let a := s.regs.a
  let value := aluOperand s
  let s := setFlag s FLAG_N true
  let s := setFlag s FLAG_H ((a &&& 0x0F) < (value &&& 0x0F))
  let s := setFlag s FLAG_C (a < value)
  let s := { s with regs := { s.regs with a := (((a : Int) - value).emod 256).toNat } }
  setFlag s FLAG_Z (s.regs.a = 0)

/-- `CPU::executeAND`. -/
def executeAND (s : CPUState) : CPUState :=
  let value := aluOperand s
  let s := { s with regs := { s.regs with a := (s.regs.a &&& value) % 256 } }
  let s := setFlag s FLAG_Z (s.regs.a = 0)
  let s := setFlag s FLAG_N false
  let s := setFlag s FLAG_H true
  setFlag s FLAG_C false

/-- `CPU::executeOR`. -/
def executeOR (s : CPUState) : CPUState :=
  let value := aluOperand s
  let s := { s with regs := { s.regs with a := (s.regs.a ||| value) % 256 } }
  let s := setFlag s FLAG_Z (s.regs.a = 0)
  let s := setFlag s FLAG_N false
  let s := setFlag s FLAG_H false
  setFlag s FLAG_C false

/-- `CPU::executeXOR`. -/
def executeXOR (s : CPUState) : CPUState :=
  let value := aluOperand s
  let s := { s with regs := { s.regs with a := (s.regs.a ^^^ value) % 256 } }
  let s := setFlag s FLAG_Z (s.regs.a = 0)
  let s := setFlag s FLAG_N false
  let s := setFlag s FLAG_H false
  setFlag s FLAG_C false

/-- The condition test shared by JP/JR/CALL/RET (a `switch` on `reg1`
in each of them). -/
def condFromReg1 (s : CPUState) : Bool :=
  match s.current_instruction.reg1 with
  | .CC_NZ => !getFlag s FLAG_Z
  | .CC_Z => getFlag s FLAG_Z
  | .CC_NC => !getFlag s FLAG_C
  | .CC_C => getFlag s FLAG_C
  | _ => true

/-- `CPU::executeJP`.  The condition `switch` only runs when
`addr_mode == R_D16`; the table's conditional jumps use `CC_D16`, so
they fall through with `shouldJump = true`. -/
def executeJP (s : CPUState) : Bool × CPUState :=
  let shouldJump :=
    if s.current_instruction.addr_mode = AddrMode.R_D16 then condFromReg1 s else true
  if shouldJump then
    if s.current_instruction.addr_mode = AddrMode.R then
      (true, { s with regs := { s.regs with pc := s.regs.hl } })
    else
      (true, { s with regs := { s.regs with pc := s.immediate_value % 65536 } })
  else (false, s)

/-- `CPU::executeJR`.  The condition `switch` only runs when
`addr_mode == R_D8`; the table's conditional JRs use `CC_D8`. -/
def executeJR (s : CPUState) : Bool × CPUState :=
  let shouldJump :=
    if s.current_instruction.addr_mode = AddrMode.R_D8 then condFromReg1 s else true
  if shouldJump then
    let offset := int8val (s.immediate_value &&& 0xFF)
    (true, { s with regs := { s.regs with pc := (((s.regs.pc : Int) + offset).emod 65536).toNat } })
  else (false, s)

/-- `CPU::executeCALL` (condition `switch` gated on `R_D16` as in JP). -/
def executeCALL (s : CPUState) : Bool × CPUState :=
  let shouldCall :=
    if s.current_instruction.addr_mode = AddrMode.R_D16 then condFromReg1 s else true
  if shouldCall then
    let s := { s with regs := { s.regs with sp := (s.regs.sp + 65534) % 65536 } }
    let s := mwrite s s.regs.sp (s.regs.pc &&& 0xFF)
    let s := mwrite s ((s.regs.sp + 1) % 65536) (s.regs.pc >>> 8)
    (true, { s with regs := { s.regs with pc := s.immediate_value % 65536 } })
  else (false, s)

/-- `CPU::executeRET` (condition `switch` gated on `IMP`; the table's
conditional RETs use `CC`, so they always return). -/
def executeRET (s : CPUState) : Bool × CPUState :=
  let shouldReturn :=
    if s.current_instruction.addr_mode = AddrMode.IMP then condFromReg1 s else true
  if shouldReturn then
    let low_byte := mread s s.regs.sp
    let high_byte := mread s ((s.regs.sp + 1) % 65536)
    let s := { s with regs := { s.regs with pc := ((high_byte <<< 8) ||| low_byte) % 65536 } }
    (true, { s with regs := { s.regs with sp := (s.regs.sp + 2) % 65536 } })
  else (false, s)

/-- `CPU::executePUSH`. -/
def executePUSH (s : CPUState) : CPUState :=
  let value := getRegister16Bit s s.current_instruction.reg1
  let s := { s with regs := { s.regs with sp := (s.regs.sp + 65534) % 65536 } }
  let s := mwrite s s.regs.sp (value &&& 0xFF)
  mwrite s ((s.regs.sp + 1) % 65536) (value >>> 8)

/-- `CPU::executePOP` (POP AF forces the low nibble of F to zero). -/
def executePOP (s : CPUState) : CPUState :=
  let low_byte := mread s s.regs.sp
  let high_byte := mread s ((s.regs.sp + 1) % 65536)
  let value := (high_byte <<< 8) ||| low_byte
  let s := { s with regs := { s.regs with sp := (s.regs.sp + 2) % 65536 } }
  let value := if s.current_instruction.reg1 = RegType.AF then value &&& 0xFFF0 else value
  setRegister16Bit s s.current_instruction.reg1 value

/-- `CPU::executeRLCA`. -/
def executeRLCA (s : CPUState) : CPUState :=
  let a := s.regs.a
  let bit7 := (a &&& 0x80) >>> 7
  let s := { s with regs := { s.regs with a := ((a <<< 1) ||| bit7) % 256 } }
  let s := setFlag s FLAG_Z false
  let s := setFlag s FLAG_N false
  let s := setFlag s FLAG_H false
  setFlag s FLAG_C (bit7 ≠ 0)

/-- `CPU::executeRRCA`. -/
def executeRRCA (s : CPUState) : CPUState :=
  let a := s.regs.a
  let bit0 := a &&& 0x01
  let s := { s with regs := { s.regs with a := ((a >>> 1) ||| (bit0 <<< 7)) % 256 } }
  let s := setFlag s FLAG_Z false
  let s := setFlag s FLAG_N false
  let s := setFlag s FLAG_H false
  setFlag s FLAG_C (bit0 ≠ 0)

/-- `CPU::executeRLA`. -/
def executeRLA (s : CPUState) : CPUState :=
  let a := s.regs.a
  let bit7 := (a &&& 0x80) >>> 7
  let oldCarry := if getFlag s FLAG_C then 1 else 0
  let s := { s with regs := { s.regs with a := ((a <<< 1) ||| oldCarry) % 256 } }
  let s := setFlag s FLAG_Z false
  let s := setFlag s FLAG_N false
  let s := setFlag s FLAG_H false
  setFlag s FLAG_C (bit7 ≠ 0)

/-- `CPU::executeRRA`. -/
def executeRRA (s : CPUState) : CPUState :=
  let a := s.regs.a
  let bit0 := a &&& 0x01
  let oldCarry := if getFlag s FLAG_C then 1 else 0
  let s := { s with regs := { s.regs with a := ((a >>> 1) ||| (oldCarry <<< 7)) % 256 } }
  let s := setFlag s FLAG_Z false
  let s := setFlag s FLAG_N false
  let s := setFlag s FLAG_H false
  setFlag s FLAG_C (bit0 ≠ 0)

/-- `CPU::executeDAA` (note: the source sets C inside the 0x60
correction branch and never clears it). -/
def executeDAA (s : CPUState) : CPUState :=
  let a := s.regs.a
  let correction : Nat :=
    if getFlag s FLAG_H || (!getFlag s FLAG_N && (a &&& 0x0F) > 9) then 0x06 else 0
  let secondCond := getFlag s FLAG_C || (!getFlag s FLAG_N && a > 0x99)
  let correction : Nat := if secondCond then correction ||| 0x60 else correction
  let s := if secondCond then setFlag s FLAG_C true else s
  let a :=
    if getFlag s FLAG_N then (((a : Int) - (correction : Int)).emod 256).toNat
    else (a + correction) % 256
  let s := { s with regs := { s.regs with a := a } }
  let s := setFlag s FLAG_Z (a = 0)
  setFlag s FLAG_H false

/-- `CPU::executeCPL`. -/
def executeCPL (s : CPUState) : CPUState :=
  let s := { s with regs := { s.regs with a := (s.regs.a ^^^ 0xFF) % 256 } }
  let s := setFlag s FLAG_N true
  setFlag s FLAG_H true

/-- `CPU::executeSCF`. -/
def executeSCF (s : CPUState) : CPUState :=
  let s := setFlag s FLAG_N false
  let s := setFlag s FLAG_H false
  setFlag s FLAG_C true

/-- `CPU::executeCCF`. -/
def executeCCF (s : CPUState) : CPUState :=
  let s := setFlag s FLAG_N false
  let s := setFlag s FLAG_H false
  setFlag s FLAG_C (!getFlag s FLAG_C)

/-- `CPU::executeHALT`. -/
def executeHALT (s : CPUState) : CPUState := { s with halted := true }

/-- `CPU::executeADC`. -/
def executeADC (s : CPUState) : CPUState :=
  let a := s.regs.a
  let carry := if getFlag s FLAG_C then 1 else 0
  let value := aluOperand s
  let result := a + value + carry
  let s := setFlag s FLAG_Z (result % 256 = 0)
  let s := setFlag s FLAG_N false
  let s := setFlag s FLAG_H (((a &&& 0x0F) + (value &&& 0x0F) + carry) > 0x0F)
  let s := setFlag s FLAG_C (result > 0xFF)
  { s with regs := { s.regs with a := result % 256 } }

/-- `CPU::executeSBC`. -/
def executeSBC (s : CPUState) : CPUState :=
  let a := s.regs.a
  let carry : Int := if getFlag s FLAG_C then 1 else 0
  let value := aluOperand s
  let result : Int := (a : Int) - value - carry
  let s := setFlag s FLAG_Z (result.emod 256 = 0)
  let s := setFlag s FLAG_N true
  let s := setFlag s FLAG_H (((a &&& 0x0F : Nat) : Int) - ((value &&& 0x0F : Nat) : Int) - carry < 0)
  let s := setFlag s FLAG_C (result < 0)
  { s with regs := { s.regs with a := (result.emod 256).toNat } }

/-- `CPU::executeCP`. -/
def executeCP (s : CPUState) : CPUState :=
  let a := s.regs.a
  let value := aluOperand s
  let result : Int := (a : Int) - value
  let s := setFlag s FLAG_Z (result.emod 256 = 0)
  let s := setFlag s FLAG_N true
  let s := setFlag s FLAG_H (((a &&& 0x0F : Nat) : Int) - ((value &&& 0x0F : Nat) : Int) < 0)
  setFlag s FLAG_C (result < 0)

/-- `CPU::executeRETI`: a normal RET, then IME is set immediately. -/
def executeRETI (s : CPUState) : CPUState :=
  let s := (executeRET s).2
  { s with ime := true }

/-- `CPU::executeLDH`. -/
def executeLDH (s : CPUState) : CPUState :=
  if s.current_instruction.addr_mode = AddrMode.A8_R then
    mwrite s (0xFF00 + (s.immediate_value &&& 0xFF)) s.regs.a
  else if s.current_instruction.addr_mode = AddrMode.R_A8 then
    { s with regs := { s.regs with a := mread s (0xFF00 + (s.immediate_value &&& 0xFF)) } }
  else if s.current_instruction.addr_mode = AddrMode.MR_R then
    mwrite s (0xFF00 + s.regs.c) s.regs.a
  else if s.current_instruction.addr_mode = AddrMode.R_MR then
    { s with regs := { s.regs with a := mread s (0xFF00 + s.regs.c) } }
  else s

/-- `CPU::executeDI` (`cpu_instructions.cpp` lines 771-774): IME is
cleared immediately. -/
def executeDI (s : CPUState) : CPUState := { s with ime := false }

/-- `CPU::executeEI` (`cpu_instructions.cpp` lines 776-779): IME is
set immediately (there is no `ei_pending` anywhere in the source). -/
def executeEI (s : CPUState) : CPUState := { s with ime := true }

/-- `CPU::executeRST` (the source multiplies the already-absolute
`param` by 8). -/
def executeRST (s : CPUState) : CPUState :=
  let addr := (s.current_instruction.param * 8) % 65536
  let s := { s with regs := { s.regs with sp := (s.regs.sp + 65534) % 65536 } }
  let s := mwrite16 s s.regs.sp s.regs.pc
  { s with regs := { s.regs with pc := addr } }

/-- The shared read/modify/write shape of the CB-prefixed operations:
on memory at `reg1` when `addr_mode == MR`, else on register `reg1`.
`op` maps the old byte to the new byte, `flg` applies the flag updates
to the state given the old and new byte values. -/
def cbApply (s : CPUState) (op : Nat → Nat) (flg : CPUState → Nat → Nat → CPUState) : CPUState :=
  if s.current_instruction.addr_mode = AddrMode.MR then
    let addr := getRegister16Bit s s.current_instruction.reg1
    let value := mread s addr
    let value2 := op value
    let s := mwrite s addr value2
    flg s value value2
  else
    let value := getRegister8Bit s s.current_instruction.reg1
    let value2 := op value
    let s := setRegister8Bit s s.current_instruction.reg1 value2
    flg s value value2

/-- `CPU::executeRLC`. -/
def executeRLC (s : CPUState) : CPUState :=
  cbApply s (fun v => ((v <<< 1) ||| ((v &&& 0x80) >>> 7)) % 256)
    (fun s v v2 =>
      let s := setFlag s FLAG_Z (v2 = 0)
      let s := setFlag s FLAG_N false
      let s := setFlag s FLAG_H false
      setFlag s FLAG_C ((v &&& 0x80) >>> 7 ≠ 0))

/-- `CPU::executeRRC`. -/
def executeRRC (s : CPUState) : CPUState :=
  cbApply s (fun v => ((v >>> 1) ||| ((v &&& 0x01) <<< 7)) % 256)
    (fun s v v2 =>
      let s := setFlag s FLAG_Z (v2 = 0)
      let s := setFlag s FLAG_N false
      let s := setFlag s FLAG_H false
      setFlag s FLAG_C (v &&& 0x01 ≠ 0))

/-- `CPU::executeRL`. -/
def executeRL (s : CPUState) : CPUState :=
  let oldCarry := if getFlag s FLAG_C then 1 else 0
  cbApply s (fun v => ((v <<< 1) ||| oldCarry) % 256)
    (fun s v v2 =>
      let s := setFlag s FLAG_Z (v2 = 0)
      let s := setFlag s FLAG_N false
      let s := setFlag s FLAG_H false
      setFlag s FLAG_C ((v &&& 0x80) >>> 7 ≠ 0))

/-- `CPU::executeRR`. -/
def executeRR (s : CPUState) : CPUState :=
  let oldCarry := if getFlag s FLAG_C then 1 else 0
  cbApply s (fun v => ((v >>> 1) ||| (oldCarry <<< 7)) % 256)
    (fun s v v2 =>
      let s := setFlag s FLAG_Z (v2 = 0)
      let s := setFlag s FLAG_N false
      let s := setFlag s FLAG_H false
      setFlag s FLAG_C (v &&& 0x01 ≠ 0))

/-- `CPU::executeSLA`. -/
def executeSLA (s : CPUState) : CPUState :=
  cbApply s (fun v => (v <<< 1) % 256)
    (fun s v v2 =>
      let s := setFlag s FLAG_Z (v2 = 0)
      let s := setFlag s FLAG_N false
      let s := setFlag s FLAG_H false
      setFlag s FLAG_C ((v &&& 0x80) >>> 7 ≠ 0))

/-- `CPU::executeSRA` (bit 7 preserved). -/
def executeSRA (s : CPUState) : CPUState :=
  cbApply s (fun v => ((v >>> 1) ||| (v &&& 0x80)) % 256)
    (fun s v v2 =>
      let s := setFlag s FLAG_Z (v2 = 0)
      let s := setFlag s FLAG_N false
      let s := setFlag s FLAG_H false
      setFlag s FLAG_C (v &&& 0x01 ≠ 0))

/-- `CPU::executeSWAP`. -/
def executeSWAP (s : CPUState) : CPUState :=
  cbApply s (fun v => (((v &&& 0x0F) <<< 4) ||| ((v &&& 0xF0) >>> 4)) % 256)
    (fun s _ v2 =>
      let s := setFlag s FLAG_Z (v2 = 0)
      let s := setFlag s FLAG_N false
      let s := setFlag s FLAG_H false
      setFlag s FLAG_C false)

/-- `CPU::executeSRL` (bit 7 cleared). -/
def executeSRL (s : CPUState) : CPUState :=
  cbApply s (fun v => (v >>> 1) % 256)
    (fun s v v2 =>
      let s := setFlag s FLAG_Z (v2 = 0)
      let s := setFlag s FLAG_N false
      let s := setFlag s FLAG_H false
      setFlag s FLAG_C (v &&& 0x01 ≠ 0))

/-- `CPU::executeBIT`. -/
def executeBIT (s : CPUState) : CPUState :=
  let bitMask := (1 <<< s.current_instruction.param) % 256
  let value :=
    if s.current_instruction.addr_mode = AddrMode.MR then
      mread s (getRegister16Bit s s.current_instruction.reg1)
    else
      getRegister8Bit s s.current_instruction.reg1
  let s := setFlag s FLAG_Z (value &&& bitMask = 0)
  let s := setFlag s FLAG_N false
  setFlag s FLAG_H true

/-- `CPU::executeRES`. -/
def executeRES (s : CPUState) : CPUState :=
  let bitMask := 0xFF ^^^ ((1 <<< s.current_instruction.param) % 256)
  cbApply s (fun v => v &&& bitMask) (fun s _ _ => s)

/-- `CPU::executeSET`. -/
def executeSET (s : CPUState) : CPUState :=
  let bitMask := (1 <<< s.current_instruction.param) % 256
  cbApply s (fun v => (v ||| bitMask) % 256) (fun s _ _ => s)

/-- `CPU::get_instruction_cycles`: conditional instructions use
`alt_cycles` when the branch is not taken. -/
def get_instruction_cycles (instr : Instruction) (branch_taken : Bool) : Nat :=
  if instr.cond ≠ CondType.NONE then
    if branch_taken then instr.cycles else instr.alt_cycles
  else instr.cycles

/-- `CPU::execute` (`cpu.cpp` lines 142-397): the `switch` over the
instruction kind.  `Type::CB` has **no case** in the source switch and
falls to the (empty) `default`, like `Type::NONE`.  Afterwards
`pending_cycles = get_instruction_cycles(...) - 1` (`uint8_t`
subtraction, modelled with `+ 255`). -/
def execute (s : CPUState) : CPUState :=
  let bs : Bool × CPUState :=
    match s.current_instruction.ty with
    | .NOP => (false, s)
    | .LD => (false, executeLD s)
    | .INC => (false, executeINC s)
    | .DEC => (false, executeDEC s)
    | .ADD => (false, executeADD s)
    | .SUB => (false, executeSUB s)
    | .AND => (false, executeAND s)
    | .OR => (false, executeOR s)
    | .XOR => (false, executeXOR s)
    | .JP => executeJP s
    | .JR => executeJR s
    | .CALL => executeCALL s
    | .RET => executeRET s
    | .PUSH => (false, executePUSH s)
    | .POP => (false, executePOP s)
    | .RLCA => (false, executeRLCA s)
    | .RRCA => (false, executeRRCA s)
    | .STOP => (false, s)
    | .RLA => (false, executeRLA s)
    | .RRA => (false, executeRRA s)
    | .DAA => (false, executeDAA s)
    | .CPL => (false, executeCPL s)
    | .SCF => (false, executeSCF s)
    | .CCF => (false, executeCCF s)
    | .HALT => (false, executeHALT s)
    | .ADC => (false, executeADC s)
    | .SBC => (false, executeSBC s)
    | .CP => (false, executeCP s)
    | .RETI => (false, executeRETI s)
    | .LDH => (false, executeLDH s)
    | .DI => (false, executeDI s)
    | .EI => (false, executeEI s)
    | .RST => (false, executeRST s)
    | .ERR => (false, s)
    | .RLC => (false, executeRLC s)
    | .RRC => (false, executeRRC s)
    | .RL => (false, executeRL s)
    | .RR => (false, executeRR s)
    | .SLA => (false, executeSLA s)
    | .SRA => (false, executeSRA s)
    | .SWAP => (false, executeSWAP s)
    | .SRL => (false, executeSRL s)
    | .BIT => (false, executeBIT s)
    | .RES => (false, executeRES s)
    | .SET => (false, executeSET s)
    | _ => (false, s)
  let s := bs.2
  { s with pending_cycles :=
      (get_instruction_cycles s.current_instruction bs.1 + 255) % 256 }

/-- One of the five repeated dispatch blocks of
`CPU::handleInterrupts` (`cpu.cpp` lines 433-525): clear IME, clear
the interrupt bit in IF, push PC (pre-decrementing SP for the high
byte then the low byte), jump to the handler `vector`, and add 12 to
the cycle counter. -/
def dispatchInterrupt (s : CPUState) (if_reg bit vector : Nat) : CPUState :=
  let s := { s with ime := false }
  let if_reg := if_reg &&& (0xFF ^^^ bit)
  let s := mwrite s 0xFF0F if_reg
  let s := { s with regs := { s.regs with sp := (s.regs.sp + 65535) % 65536 } }
  let s := mwrite s s.regs.sp (s.regs.pc >>> 8)
  let s := { s with regs := { s.regs with sp := (s.regs.sp + 65535) % 65536 } }
  let s := mwrite s s.regs.sp (s.regs.pc &&& 0xFF)
  let s := { s with regs := { s.regs with pc := vector } }
  { s with cycles := s.cycles + 12 }

/-- `CPU::handleInterrupts` (`cpu.cpp` lines 408-528).  Returns
whether an interrupt was dispatched, like the C++ `bool`.  Note the
early return when IME is clear: `halted` is *not* touched in that
case, despite the "Exit HALT mode if any interrupt is requested (even
if disabled)" comment guarding the `halted = false` line below it. -/
def handleInterrupts (s : CPUState) : Bool × CPUState :=
  if !s.ime then (false, s)
  else
    let if_reg := mread s 0xFF0F
    let ie_reg := mread s 0xFFFF
    let active_interrupts := if_reg &&& ie_reg &&& 0x1F
    if active_interrupts = 0 then (false, s)
    else
      let s := { s with halted := false }
      if active_interrupts &&& 0x01 ≠ 0 then (true, dispatchInterrupt s if_reg 0x01 0x0040)
      else if active_interrupts &&& 0x02 ≠ 0 then (true, dispatchInterrupt s if_reg 0x02 0x0048)
      else if active_interrupts &&& 0x04 ≠ 0 then (true, dispatchInterrupt s if_reg 0x04 0x0050)
      else if active_interrupts &&& 0x08 ≠ 0 then (true, dispatchInterrupt s if_reg 0x08 0x0058)
      else if active_interrupts &&& 0x10 ≠ 0 then (true, dispatchInterrupt s if_reg 0x10 0x0060)
      else (false, s)

/-- `CPU::tick` (`cpu.cpp` lines 19-92).  The debug breakpoint
printing is omitted; `debug_instruction_count` is kept since it is CPU
state.  A fetched opcode is decoded **only** through the primary table
`Instructions::get` — there is no 0xCB special case and `getCB` is
never called. -/
def tick (s : CPUState) : CPUState :=
  if s.stopped then { s with cycles := s.cycles + 1 }
  else
    let hi := handleInterrupts s
    if hi.1 then hi.2
    else
      let s := hi.2
      if s.halted then { s with cycles := s.cycles + 1 }
      else if s.pending_cycles = 0 then
        let s :=
          if s.halt_bug_active then
            -- HALT bug path: PC is not incremented for this fetch
            { s with halt_bug_active := false, current_opcode := mread s s.regs.pc }
          else
            let s := { s with current_opcode := mread s s.regs.pc }
            incPC s
        let s := { s with debug_instruction_count := s.debug_instruction_count + 1 }
        let s := { s with current_instruction := Instructions.get s.current_opcode }
        let s := fetch_adress s
        let s := execute s
        { s with cycles := s.cycles + 1 }
      else
        { s with pending_cycles := s.pending_cycles - 1, cycles := s.cycles + 1 }

end CPU

/-! ## Concrete machines used by the claim theorems -/

/-- A zeroed timer. -/
def timer0 : Timer :=
  { div_counter := 0, div := 0, tima := 0, tma := 0, tac := 0,
    interrupt_requested := false, tima_reload_scheduled := false,
    previous_bit_state := false }

/-- A bus with zeroed RAM regions, no GPU attached, and a ROM-only
cartridge holding `rom`. -/
def busOfRom (rom : List Nat) : MemoryBus :=
  { vram := fun _ => 0, wram := fun _ => 0, oam := fun _ => 0,
    io_regs := fun _ => 0, hram := fun _ => 0, ie_register := 0,
    cart := .romOnly { rom := rom, ram := [], ram_enabled := false },
    timer := timer0, gpuMode := none,
    joypad_state := 0xFF, joypad_select := 0xF0 }

/-- A CPU over `bus` in the post-boot register state of the `CPU`
constructor, but with PC at 0 so the test ROMs start at offset 0. -/
def cpuOn (bus : MemoryBus) : CPUState :=
  { regs := { a := 0x01, f := 0xB0, b := 0x00, c := 0x13, d := 0x00, e := 0xD8,
              h := 0x01, l := 0x4D, sp := 0xFFFE, pc := 0x0000 },
    cycles := 0, pending_cycles := 0, current_opcode := 0,
    halted := false, stopped := false, current_instruction := default,
    immediate_value := 0, ime := false, halt_bug_active := false,
    debug_instruction_count := 0, bus := bus }

/-! ## Claim theorems -/

/-- The machine for C1: the ROM starts with the CB prefix 0xCB
followed by 0x37 (the CB encoding of SWAP A), and A holds 0x12. -/
def c1cpu : CPUState :=
  let bus := busOfRom [0xCB, 0x37, 0x00, 0x00]
  let s := cpuOn bus
  { s with regs := { s.regs with a := 0x12 } }

/-- C1: the claim says a 0xCB fetch decodes through the CB table and
executes the decoded CB operation.  In the source, opcode 0xCB decodes
through the *primary* table only (`Instructions::get`); its entry has
kind `CB`, for which `CPU::execute`'s switch has no case, and
`Instructions::getCB` is never called by the CPU.  Concretely, ticking
on `CB 37` (SWAP A) leaves A = 0x12 and F unchanged (SWAP A would give
A = 0x21 and F = 0x00) and takes the primary entry's 4 cycles
(`pending_cycles` = 3), not the CB entry's 8. -/
theorem C1_cb_prefix_never_dispatched :
    Instructions.get 0xCB = ⟨.CB, .D8, .NONE, .NONE, .NONE, 0, 4, 0⟩ ∧
    (Instructions.getCB 0x37).ty = Ty.SWAP ∧
    (Instructions.getCB 0x37).reg1 = RegType.A ∧
    (CPU.tick c1cpu).current_instruction = Instructions.get 0xCB ∧
    (CPU.tick c1cpu).regs.a = 0x12 ∧
    (CPU.tick c1cpu).regs.f = 0xB0 ∧
    (CPU.tick c1cpu).pending_cycles = 3 := by
  decide

/-- The machine for C4: halted, IME clear, VBlank requested (IF bit 0)
and enabled (IE bit 0). -/
def c4cpu : CPUState :=
  let bus0 := busOfRom [0x00]
  let bus := { bus0 with io_regs := fupd (fun _ => 0) 0x0F 0x01, ie_register := 0x01 }
  let s := cpuOn bus
  { s with halted := true, ime := false }

/-- C4: the claim says a halted CPU with `IF & IE & 0x1F ≠ 0` resumes
regardless of IME.  In the source, `CPU::handleInterrupts` returns
early when IME is clear — before the `halted = false` line — so a
halted CPU with a pending enabled interrupt but IME clear stays halted
forever (each tick just burns one cycle).  With IME set, the same
state does get un-halted by the dispatch. -/
theorem C4_halted_stays_halted_without_ime :
    c4cpu.halted = true ∧ c4cpu.ime = false ∧
    (c4cpu.bus.read 0xFF0F) &&& (c4cpu.bus.read 0xFFFF) &&& 0x1F ≠ 0 ∧
    (CPU.tick c4cpu).halted = true ∧
    (CPU.tick c4cpu).cycles = c4cpu.cycles + 1 ∧
    (CPU.tick (let s := c4cpu; { s with ime := true })).halted = false := by
  decide

/-- The bus for C6: PPU attached and in Mode 3 (TRANSFER), VRAM byte 0
holding 0x42. -/
def c6bus : MemoryBus :=
  let bus0 := busOfRom []
  { bus0 with gpuMode := some LCDMode.TRANSFER, vram := fupd (fun _ => 0) 0 0x42 }

/-- C6: the claim says 0x8000-0x9FFF reads return 0xFF and writes are
dropped during PPU Mode 3.  The source comments the hardware behaviour
out ("IMPORTANT: For debugging - always allow VRAM access regardless
of LCD mode"): during Mode 3 a read returns the stored VRAM byte and a
write lands. -/
theorem C6_mode3_vram_gate_bypassed :
    c6bus.gpuMode = some LCDMode.TRANSFER ∧
    c6bus.read 0x8000 = 0x42 ∧
    c6bus.read 0x8000 ≠ 0xFF ∧
    (c6bus.write 0x8000 0x99).vram 0 = 0x99 ∧
    (c6bus.write 0x8000 0x99).read 0x8000 = 0x99 := by
  decide

/-- C7: the claim says shades 0/1/2/3 map to white / light gray /
dark gray / black (#FFFFFFFF, #FFAAAAAA, #FF555555, #FF000000).
`GPU::getRGBColor` instead uses the debugging colours red / green /
blue / white, so every conjunct of the claimed grayscale mapping
except none holds; shade 0 in particular maps to opaque red. -/
theorem C7_rgb_mapping_is_debug_colors :
    GPU.getRGBColor 0 = 0xFFFF0000 ∧
    GPU.getRGBColor 1 = 0xFF00FF00 ∧
    GPU.getRGBColor 2 = 0xFF0000FF ∧
    GPU.getRGBColor 3 = 0xFFFFFFFF ∧
    GPU.getRGBColor 0 ≠ 0xFFFFFFFF ∧
    GPU.getRGBColor 1 ≠ 0xFFAAAAAA ∧
    GPU.getRGBColor 2 ≠ 0xFF555555 ∧
    GPU.getRGBColor 3 ≠ 0xFF000000 := by
  decide

/-- The machine for C2's counterexample: IME clear, EI (0xFB) at PC. -/
def c2cpu : CPUState := cpuOn (busOfRom [0xFB, 0x00])

/-- C2 counterexample: the claim says EI "does not set IME
immediately" — IME should become true only after the *following*
instruction completes.  Ticking once on EI already leaves IME set. -/
theorem C2_counterexample_ei_sets_ime_immediately :
    c2cpu.ime = false ∧
    c2cpu.bus.read c2cpu.regs.pc = 0xFB ∧
    (CPU.tick c2cpu).ime = true := by
  decide

/-- C2 amended: `CPU::executeEI` runs `ime = true` directly and no
`ei_pending` flag exists anywhere in the source, so executing EI sets
IME immediately (already within the EI instruction's own tick); DI
clears IME immediately.  `s` is any non-stopped, non-halted machine
about to fetch EI with IME clear; `t` is any non-stopped, non-halted
machine about to fetch DI with no enabled pending interrupt (so no
dispatch precedes the fetch). -/
theorem C2_amended_ei_di_set_ime_immediately
    (s t : CPUState)
    (hstop : s.stopped = false) (hime : s.ime = false) (hhalt : s.halted = false)
    (hpend : s.pending_cycles = 0) (hop : s.bus.read s.regs.pc = 0xFB)
    (tstop : t.stopped = false) (thalt : t.halted = false)
    (tpend : t.pending_cycles = 0)
    (tint : (t.bus.read 0xFF0F) &&& (t.bus.read 0xFFFF) &&& 0x1F = 0)
    (top : t.bus.read t.regs.pc = 0xF3) :
    (CPU.tick s).ime = true ∧ (CPU.tick t).ime = false := by
  have hEI : Instructions.get 0xFB =
      ⟨Ty.EI, AddrMode.IMP, RegType.NONE, RegType.NONE, CondType.NONE, 0, 4, 0⟩ := by decide
  have hDI : Instructions.get 0xF3 =
      ⟨Ty.DI, AddrMode.IMP, RegType.NONE, RegType.NONE, CondType.NONE, 0, 4, 0⟩ := by decide
  constructor
  · cases hb : s.halt_bug_active <;>
      simp [CPU.tick, CPU.handleInterrupts, CPU.mread, CPU.incPC, CPU.fetch_adress,
        CPU.execute, CPU.executeEI, hstop, hime, hhalt, hpend, hop, hb, hEI]
  · cases htime : t.ime <;> cases hb : t.halt_bug_active <;>
      simp [CPU.tick, CPU.handleInterrupts, CPU.mread, CPU.incPC, CPU.fetch_adress,
        CPU.execute, CPU.executeDI, tstop, thalt, tpend, top, tint, htime, hb, hDI]

/-- Witness for the amended C2 theorem at concrete machines. -/
theorem C2_amended_witness :
    (CPU.tick c2cpu).ime = true ∧
    (CPU.tick (let u := cpuOn (busOfRom [0xF3, 0x00]); { u with ime := true })).ime = false := by
  exact C2_amended_ei_di_set_ime_immediately c2cpu
    (let u := cpuOn (busOfRom [0xF3, 0x00]); { u with ime := true })
    (by decide) (by decide) (by decide) (by decide) (by decide)
    (by decide) (by decide) (by decide) (by decide) (by decide)

/-- The MBC3 state for C8's counterexample: RTC cart with the RTC
halted (DH bit 6) so the live registers are stable, live seconds 10,
latched seconds 0, latch detector idle. -/
def c8mbc3 : MBC3 :=
  { rom := [], ram := [], ram_enabled := false, rom_bank := 1, ram_bank := 0,
    rtc := true, rtc_latch := false,
    rtc_s := 10, rtc_m := 11, rtc_h := 12, rtc_dl := 13, rtc_dh := 0x40,
    latch_rtc_s := 0, latch_rtc_m := 0, latch_rtc_h := 0, latch_rtc_dl := 0,
    latch_rtc_dh := 0, now := ⟨0, 0, 0, 0⟩ }

/-- C8 counterexample: the claim says the 0x00 → 0x01 latch "still
occurs when a value other than 0x00/0x01 is written between the 0x00
and the 0x01 (the intermediate write is discarded)".  In
`MBC3::write`, any other value falls to the `else` that clears
`rtc_latch`, so after 0x00, 0x55, 0x01 no latch has happened: the
latched seconds register still holds 0 while the live one holds 10. -/
theorem C8_counterexample_intermediate_write_resets_latch :
    (((c8mbc3.write 0x6000 0x00).write 0x6000 0x55).write 0x6000 0x01).latch_rtc_s = 0 ∧
    (((c8mbc3.write 0x6000 0x00).write 0x6000 0x55).write 0x6000 0x01).rtc_s = 10 ∧
    ((c8mbc3.write 0x6000 0x00).write 0x6000 0x01).latch_rtc_s = 10 := by
  decide

/-- C8 amended: on an MBC3 cartridge with RTC whose latch detector is
idle (`rtc_latch = false`, its constructor state), writing 0x00 and
then 0x01 to the 0x6000-0x7FFF range latches a snapshot of the current
RTC registers into the shadow set (after the wall-clock refresh
`latchRTC` performs): afterwards every latched register equals the
corresponding live register.  A value other than 0x00/0x01 written
between the 0x00 and the 0x01 is *not* discarded: it resets the latch
detector, and the subsequent 0x01 does not latch (the shadow set and
the detector are left as before the sequence). -/
theorem C8_amended_latch_requires_uninterrupted_sequence
    (m : MBC3) (hrtc : m.rtc = true) (hlatch : m.rtc_latch = false) :
    (let m2 := (m.write 0x6000 0x00).write 0x6000 0x01
     m2.latch_rtc_s = m2.rtc_s ∧ m2.latch_rtc_m = m2.rtc_m ∧
     m2.latch_rtc_h = m2.rtc_h ∧ m2.latch_rtc_dl = m2.rtc_dl ∧
     m2.latch_rtc_dh = m2.rtc_dh ∧ m2.rtc_latch = false) ∧
    (∀ v, v ≠ 0x00 → v ≠ 0x01 →
     let m3 := ((m.write 0x6000 0x00).write 0x6000 v).write 0x6000 0x01
     m3.latch_rtc_s = m.latch_rtc_s ∧ m3.latch_rtc_m = m.latch_rtc_m ∧
     m3.latch_rtc_h = m.latch_rtc_h ∧ m3.latch_rtc_dl = m.latch_rtc_dl ∧
     m3.latch_rtc_dh = m.latch_rtc_dh ∧ m3.rtc_latch = false) := by
  constructor
  · simp only [MBC3.write]
    norm_num [hrtc, hlatch, MBC3.latchRTC, MBC3.updateRTC]
  · intro v hv0 hv1
    simp only [MBC3.write]
    norm_num [hrtc, hlatch, hv0, hv1]

/-- Witness for the amended C8 theorem at the concrete cart. -/
theorem C8_amended_witness :
    (let m2 := (c8mbc3.write 0x6000 0x00).write 0x6000 0x01
     m2.latch_rtc_s = m2.rtc_s ∧ m2.latch_rtc_m = m2.rtc_m ∧
     m2.latch_rtc_h = m2.rtc_h ∧ m2.latch_rtc_dl = m2.rtc_dl ∧
     m2.latch_rtc_dh = m2.rtc_dh ∧ m2.rtc_latch = false) ∧
    (∀ v, v ≠ 0x00 → v ≠ 0x01 →
     let m3 := ((c8mbc3.write 0x6000 0x00).write 0x6000 v).write 0x6000 0x01
     m3.latch_rtc_s = c8mbc3.latch_rtc_s ∧ m3.latch_rtc_m = c8mbc3.latch_rtc_m ∧
     m3.latch_rtc_h = c8mbc3.latch_rtc_h ∧ m3.latch_rtc_dl = c8mbc3.latch_rtc_dl ∧
     m3.latch_rtc_dh = c8mbc3.latch_rtc_dh ∧ m3.rtc_latch = false) :=
  C8_amended_latch_requires_uninterrupted_sequence c8mbc3 (by decide) (by decide)

/-- The ROM offset `MBC1::read` computes for a 0x0000-0x7FFF address
(stating helper for C9; mirrors the branches of `read`). -/
def MBC1.romOffset (m : MBC1) (addr : Nat) : Nat :=
  if addr ≤ 0x3FFF then
    if m.mode_select then
      if m.multicart then (m.ram_bank <<< 18) ||| (addr &&& 0x3FFF)
      else (m.ram_bank <<< 19) ||| (addr &&& 0x3FFF)
    else addr
  else m.getRomBankStart + (addr - 0x4000)

/-- The RAM offset `MBC1::read` computes for a 0xA000-0xBFFF address. -/
def MBC1.ramOffset (m : MBC1) (addr : Nat) : Nat :=
  if m.mode_select then m.getRamBankStart + (addr - 0xA000) else addr - 0xA000

/-- The ROM offset `MBC3::read` computes for a 0x0000-0x7FFF address. -/
def MBC3.romOffset (m : MBC3) (addr : Nat) : Nat :=
  if addr ≤ 0x3FFF then addr else m.rom_bank * 0x4000 + (addr - 0x4000)

/-- The RAM offset `MBC3::read` computes for a 0xA000-0xBFFF address
on a RAM bank (`ram_bank ≤ 0x07`). -/
def MBC3.ramOffset (m : MBC3) (addr : Nat) : Nat :=
  m.ram_bank * 0x2000 + (addr - 0xA000)

/-- The ROM offset `MBC5::read` computes for a 0x0000-0x7FFF address. -/
def MBC5.romOffset (m : MBC5) (addr : Nat) : Nat :=
  if addr ≤ 0x3FFF then addr else m.rom_bank * 0x4000 + (addr - 0x4000)

/-- The RAM offset `MBC5::read` computes for a 0xA000-0xBFFF address. -/
def MBC5.ramOffset (m : MBC5) (addr : Nat) : Nat :=
  m.ram_bank * 0x2000 + (addr - 0xA000)

/-- C9: every ROM/RAM access in the `read` functions of ROM-only,
MBC1, MBC3 and MBC5 is bounds-guarded: whenever the computed ROM or
RAM offset lies at or beyond the end of the backing byte array, the
read returns 0xFF.  (Totality over all addresses and bank states holds
by construction: each `read` above is a total Lean function.)  The
MBC3 RAM conjunct is restricted to RAM banks (`ram_bank ≤ 0x07`); for
0x08-0x0C with RTC the read returns a latched RTC register, not an
array element. -/
theorem C9_mbc_reads_bounds_guarded :
    (∀ (m : ROMOnly) (addr : Nat), addr ≤ 0x7FFF → m.rom.length ≤ addr →
       m.read addr = 0xFF) ∧
    (∀ (m : ROMOnly) (addr : Nat), 0xA000 ≤ addr → addr ≤ 0xBFFF →
       m.ram.length ≤ addr - 0xA000 → m.read addr = 0xFF) ∧
    (∀ (m : MBC1) (addr : Nat), addr ≤ 0x7FFF → m.rom.length ≤ m.romOffset addr →
       m.read addr = 0xFF) ∧
    (∀ (m : MBC1) (addr : Nat), 0xA000 ≤ addr → addr ≤ 0xBFFF →
       m.ram.length ≤ m.ramOffset addr → m.read addr = 0xFF) ∧
    (∀ (m : MBC3) (addr : Nat), addr ≤ 0x7FFF → m.rom.length ≤ m.romOffset addr →
       m.read addr = 0xFF) ∧
    (∀ (m : MBC3) (addr : Nat), 0xA000 ≤ addr → addr ≤ 0xBFFF → m.ram_bank ≤ 0x07 →
       m.ram.length ≤ m.ramOffset addr → m.read addr = 0xFF) ∧
    (∀ (m : MBC5) (addr : Nat), addr ≤ 0x7FFF → m.rom.length ≤ m.romOffset addr →
       m.read addr = 0xFF) ∧
    (∀ (m : MBC5) (addr : Nat), 0xA000 ≤ addr → addr ≤ 0xBFFF →
       m.ram.length ≤ m.ramOffset addr → m.read addr = 0xFF) := by
  refine ⟨?_, ?_, ?_, ?_, ?_, ?_, ?_, ?_⟩
  · intro m addr h1 h2
    unfold ROMOnly.read
    rw [if_pos h1]
    exact List.getD_eq_default _ _ h2
  · intro m addr h1 h2 h3
    unfold ROMOnly.read
    rw [if_neg (by omega), if_pos (show 0xA000 ≤ addr ∧ addr ≤ 0xBFFF by omega),
        if_neg (fun hc => absurd hc.2 (by omega))]
  · intro m addr h1 h2
    unfold MBC1.romOffset at h2
    unfold MBC1.read
    by_cases ha : addr ≤ 0x3FFF
    · rw [if_pos ha] at h2 ⊢
      exact List.getD_eq_default _ _ h2
    · rw [if_neg ha] at h2 ⊢
      rw [if_pos (show 0x4000 ≤ addr ∧ addr ≤ 0x7FFF by omega)]
      exact List.getD_eq_default _ _ h2
  · intro m addr h1 h2 h3
    unfold MBC1.ramOffset at h3
    unfold MBC1.read
    rw [if_neg (by omega), if_neg (fun hc => absurd hc.2 (by omega)),
        if_pos (show 0xA000 ≤ addr ∧ addr ≤ 0xBFFF by omega)]
    by_cases he : (m.ram_enabled : Prop) ∧ m.ram ≠ []
    · rw [if_pos he]
      exact List.getD_eq_default _ _ h3
    · rw [if_neg he]
  · intro m addr h1 h2
    unfold MBC3.romOffset at h2
    unfold MBC3.read
    by_cases ha : addr ≤ 0x3FFF
    · rw [if_pos ha] at h2 ⊢
      exact List.getD_eq_default _ _ h2
    · rw [if_neg ha] at h2 ⊢
      rw [if_pos (show 0x4000 ≤ addr ∧ addr ≤ 0x7FFF by omega)]
      exact List.getD_eq_default _ _ h2
  · intro m addr h1 h2 hbank h3
    unfold MBC3.ramOffset at h3
    unfold MBC3.read
    rw [if_neg (by omega), if_neg (fun hc => absurd hc.2 (by omega)),
        if_pos (show 0xA000 ≤ addr ∧ addr ≤ 0xBFFF by omega)]
    by_cases he : (m.ram_enabled : Prop)
    · rw [if_pos he, if_neg (fun hc => absurd hc.2.1 (by omega))]
      by_cases hr : m.ram_bank ≤ 0x07 ∧ m.ram ≠ []
      · rw [if_pos hr]
        exact List.getD_eq_default _ _ h3
      · rw [if_neg hr]
    · rw [if_neg he]
  · intro m addr h1 h2
    unfold MBC5.romOffset at h2
    unfold MBC5.read
    by_cases ha : addr ≤ 0x3FFF
    · rw [if_pos ha] at h2 ⊢
      exact List.getD_eq_default _ _ h2
    · rw [if_neg ha] at h2 ⊢
      rw [if_pos (show 0x4000 ≤ addr ∧ addr ≤ 0x7FFF by omega)]
      exact List.getD_eq_default _ _ h2
  · intro m addr h1 h2 h3
    unfold MBC5.ramOffset at h3
    unfold MBC5.read
    rw [if_neg (by omega), if_neg (fun hc => absurd hc.2 (by omega)),
        if_pos (show 0xA000 ≤ addr ∧ addr ≤ 0xBFFF by omega)]
    by_cases he : (m.ram_enabled : Prop) ∧ m.ram ≠ []
    · rw [if_pos he]
      exact List.getD_eq_default _ _ h3
    · rw [if_neg he]

/-- Witness for C9 at concrete out-of-range accesses on each MBC. -/
theorem C9_witness :
    ({ rom := [0xAA], ram := [], ram_enabled := false : ROMOnly }.read 0x0001 = 0xFF) ∧
    ({ rom := [0xAA], ram := [0xBB], ram_enabled := true : ROMOnly }.read 0xA001 = 0xFF) ∧
    ({ rom := [0xAA, 0xBB], ram := [], ram_enabled := false, rom_bank := 2, ram_bank := 0,
       mode_select := false, multicart := false : MBC1 }.read 0x4000 = 0xFF) ∧
    ({ rom := [], ram := [0xBB], ram_enabled := true, rom_bank := 1, ram_bank := 0,
       mode_select := false, multicart := false : MBC1 }.read 0xA001 = 0xFF) ∧
    (c8mbc3.read 0x4001 = 0xFF) ∧
    ({ c8mbc3 with ram := [0xBB], ram_enabled := true }.read 0xA001 = 0xFF) ∧
    ({ rom := [0xAA], ram := [], ram_enabled := false, rom_bank := 0x1FF, ram_bank := 0,
       rumble := false : MBC5 }.read 0x7FFF = 0xFF) ∧
    ({ rom := [], ram := [0xBB], ram_enabled := true, rom_bank := 1, ram_bank := 1,
       rumble := false : MBC5 }.read 0xA000 = 0xFF) := by
  refine ⟨?_, ?_, ?_, ?_, ?_, ?_, ?_, ?_⟩
  · exact C9_mbc_reads_bounds_guarded.1 _ 0x0001 (by decide) (by decide)
  · exact C9_mbc_reads_bounds_guarded.2.1 _ 0xA001 (by decide) (by decide) (by decide)
  · exact C9_mbc_reads_bounds_guarded.2.2.1 _ 0x4000 (by decide) (by decide)
  · exact C9_mbc_reads_bounds_guarded.2.2.2.1 _ 0xA001 (by decide) (by decide) (by decide)
  · exact C9_mbc_reads_bounds_guarded.2.2.2.2.1 _ 0x4001 (by decide) (by decide)
  · exact C9_mbc_reads_bounds_guarded.2.2.2.2.2.1 _ 0xA001 (by decide) (by decide) (by decide) (by decide)
  · exact C9_mbc_reads_bounds_guarded.2.2.2.2.2.2.1 _ 0x7FFF (by decide) (by decide)
  · exact C9_mbc_reads_bounds_guarded.2.2.2.2.2.2.2 _ 0xA000 (by decide) (by decide) (by decide)

/-- C5: a TIMA overflow (0xFF → 0x00 on a falling edge of the timer
input) does not reload TIMA in the same timer cycle: that cycle ends
with TIMA = 0, the reload pending, and IF untouched.  On the next
timer cycle TIMA is loaded from TMA and the Timer interrupt bit (IF
bit 2) is set.  (No falling edge can fire in the reload cycle itself,
because the detector's previous-state latch is false after the
overflow cycle, so TIMA still equals TMA at the end of that cycle.)
`hfall` states that the timer input sampled after this cycle's counter
increment is low while the previous sample was high. -/
theorem C5_tima_overflow_delayed_reload
    (b : MemoryBus)
    (h255 : b.timer.tima = 0xFF)
    (hsch : b.timer.tima_reload_scheduled = false)
    (hprev : b.timer.previous_bit_state = true)
    (hfall : (b.timer.isTimerEnabled &&
              Timer.selectedBit b.timer.tac ((b.timer.div_counter + 1) % 65536)) = false) :
    (Timer.tickOne b).timer.tima = 0 ∧
    (Timer.tickOne b).timer.tima_reload_scheduled = true ∧
    (Timer.tickOne b).io_regs 0x0F = b.io_regs 0x0F ∧
    (Timer.tickOne (Timer.tickOne b)).timer.tima = b.timer.tma ∧
    (Timer.tickOne (Timer.tickOne b)).timer.tima_reload_scheduled = false ∧
    ((Timer.tickOne (Timer.tickOne b)).io_regs 0x0F) &&& 0x04 = 0x04 := by
  have hor : ∀ y : Nat, (y ||| 4) &&& 4 = 4 := by
    intro y
    apply Nat.eq_of_testBit_eq
    intro i
    simp only [Nat.testBit_and, Nat.testBit_or]
    rcases i with _ | _ | _ | i <;> simp [Nat.testBit_succ]
  have hb1 : Timer.tickOne b =
      { b with timer :=
          { b.timer with
              div_counter := (b.timer.div_counter + 1) % 65536,
              div := ((b.timer.div_counter + 1) % 65536) >>> 8,
              tima := 0, tima_reload_scheduled := true,
              previous_bit_state := false } } := by
    unfold Timer.tickOne
    rw [hsch]
    simp only [Bool.false_eq_true, if_false, hprev, Timer.isTimerEnabled] at *
    rw [hfall]
    simp [h255]
  rw [hb1]
  unfold Timer.tickOne
  simp only [if_true, Bool.false_eq_true, if_false, Bool.false_and]
  rcases hg : b.gpuMode with _ | g <;>
    norm_num [MemoryBus.read, MemoryBus.write, fupd, hor, hg]

/-- The bus for C5's witness: timer enabled on the bit-3 source
(TAC = 0x05), TIMA = 0xFF, TMA = 0xAB, counter about to drop the
selected bit (0x0F → 0x10), previous sample high. -/
def c5bus : MemoryBus :=
  let b := busOfRom []
  let t := { timer0 with tac := 0x05, tima := 0xFF, tma := 0xAB, div_counter := 0x0F, previous_bit_state := true }
  { b with timer := t }

/-- Witness for C5 at the concrete timer state. -/
theorem C5_witness :
    (Timer.tickOne c5bus).timer.tima = 0 ∧
    (Timer.tickOne c5bus).timer.tima_reload_scheduled = true ∧
    (Timer.tickOne c5bus).io_regs 0x0F = c5bus.io_regs 0x0F ∧
    (Timer.tickOne (Timer.tickOne c5bus)).timer.tima = c5bus.timer.tma ∧
    (Timer.tickOne (Timer.tickOne c5bus)).timer.tima_reload_scheduled = false ∧
    ((Timer.tickOne (Timer.tickOne c5bus)).io_regs 0x0F) &&& 0x04 = 0x04 :=
  C5_tima_overflow_delayed_reload c5bus (by decide) (by decide) (by decide) (by decide)

/-! ## Bus routing lemmas (shared by the interrupt-dispatch theorems) -/

/-- Reading 0xFF0F routes to the IF byte of the IO register file. -/
theorem MemoryBus.read_ff0f (b : MemoryBus) : b.read 0xFF0F = b.io_regs 0x0F % 256 := by
  norm_num [MemoryBus.read]

/-- Reading 0xFFFF routes to the IE register. -/
theorem MemoryBus.read_ffff (b : MemoryBus) : b.read 0xFFFF = b.ie_register % 256 := by
  norm_num [MemoryBus.read]

/-- Writing 0xFF0F stores into the IF byte of the IO register file. -/
theorem MemoryBus.write_ff0f (b : MemoryBus) (v : Nat) :
    b.write 0xFF0F v = { b with io_regs := fupd b.io_regs 0x0F v } := by
  rcases hg : b.gpuMode with _ | g <;> norm_num [MemoryBus.write, hg]

/-- Writing a 0xC000-0xDFFF address stores into WRAM. -/
theorem MemoryBus.write_wram (b : MemoryBus) (addr v : Nat)
    (h1 : 0xC000 ≤ addr) (h2 : addr ≤ 0xDFFF) :
    b.write addr v = { b with wram := fupd b.wram (addr - 0xC000) v } := by
  unfold MemoryBus.write
  rw [if_neg (by omega), if_neg (fun hc => absurd hc.2 (by omega)),
      if_neg (fun hc => absurd hc.2 (by omega)),
      if_pos (show 0xC000 ≤ addr ∧ addr ≤ 0xDFFF by omega)]

/-- Reading a 0xC000-0xDFFF address returns the WRAM byte. -/
theorem MemoryBus.read_wram (b : MemoryBus) (addr : Nat)
    (h1 : 0xC000 ≤ addr) (h2 : addr ≤ 0xDFFF) :
    b.read addr = b.wram (addr - 0xC000) % 256 := by
  unfold MemoryBus.read
  rw [if_neg (by omega), if_neg (fun hc => absurd hc.2 (by omega)),
      if_neg (fun hc => absurd hc.2 (by omega)),
      if_pos (show 0xC000 ≤ addr ∧ addr ≤ 0xDFFF by omega)]


/-- What one `CPU::handleInterrupts` dispatch block does, for a CPU
whose SP points into WRAM with room for the two pushed bytes: the
result state spelled out. -/
theorem CPU.dispatchInterrupt_eq (s : CPUState) (if_reg bit vector : Nat)
    (hsp1 : 0xC002 ≤ s.regs.sp) (hsp2 : s.regs.sp ≤ 0xDFFF) :
    CPU.dispatchInterrupt s if_reg bit vector =
      { s with
        ime := false,
        cycles := s.cycles + 12,
        regs := { s.regs with sp := s.regs.sp - 2, pc := vector },
        bus := { s.bus with
                   io_regs := fupd s.bus.io_regs 0x0F (if_reg &&& (0xFF ^^^ bit)),
                   wram := fupd (fupd s.bus.wram (s.regs.sp - 1 - 0xC000) (s.regs.pc >>> 8))
                                (s.regs.sp - 2 - 0xC000) (s.regs.pc &&& 0xFF) } } := by
  have e1 : (s.regs.sp + 65535) % 65536 = s.regs.sp - 1 := by omega
  have e2 : (s.regs.sp - 1 + 65535) % 65536 = s.regs.sp - 2 := by omega
  have w1 : ∀ (b : MemoryBus) (v : Nat), b.write (s.regs.sp - 1) v =
      { b with wram := fupd b.wram (s.regs.sp - 1 - 0xC000) v } :=
    fun b v => MemoryBus.write_wram b _ v (by omega) (by omega)
  have w2 : ∀ (b : MemoryBus) (v : Nat), b.write (s.regs.sp - 2) v =
      { b with wram := fupd b.wram (s.regs.sp - 2 - 0xC000) v } :=
    fun b v => MemoryBus.write_wram b _ v (by omega) (by omega)
  unfold CPU.dispatchInterrupt CPU.mwrite
  simp only [MemoryBus.write_ff0f, e1, e2, w1, w2]

/-- The priority order of `CPU::handleInterrupts`: index of the lowest
set bit among bits 0-4 (VBlank 0, LCD-STAT 1, Timer 2, Serial 3,
Joypad 4); 5 if none is set (claim-side helper for C3). -/
def lowestSetIndex (n : Nat) : Nat :=
  if n &&& 0x01 ≠ 0 then 0
  else if n &&& 0x02 ≠ 0 then 1
  else if n &&& 0x04 ≠ 0 then 2
  else if n &&& 0x08 ≠ 0 then 3
  else if n &&& 0x10 ≠ 0 then 4
  else 5

/-- The machine for C3's counterexample: IME set, VBlank pending and
enabled, SP in WRAM. -/
def c3cpu : CPUState :=
  let bus0 := busOfRom [0x00]
  let bus := { bus0 with io_regs := fupd (fun _ => 0) 0x0F 0x01, ie_register := 0x01 }
  let u := cpuOn bus
  { u with ime := true, regs := { u.regs with pc := 0x1234, sp := 0xD000 } }

/-- C3 counterexample: the claim says dispatch advances the cycle
counter by exactly 20 T-cycles; `CPU::handleInterrupts` adds 12
(`cycles += 12;  // Interrupt takes 12 cycles`) and `CPU::tick`
returns without further increments. -/
theorem C3_counterexample_dispatch_costs_12_not_20 :
    c3cpu.ime = true ∧
    (c3cpu.bus.read 0xFF0F) &&& (c3cpu.bus.read 0xFFFF) &&& 0x1F ≠ 0 ∧
    (CPU.tick c3cpu).cycles = c3cpu.cycles + 12 ∧
    ¬((CPU.tick c3cpu).cycles = c3cpu.cycles + 20) := by
  decide

/-- C3 amended: a CPU step taken with IME set and `IF & IE & 0x1F`
nonzero (not stopped; SP pointing into WRAM with room for the push, PC
a 16-bit value) clears IME, leaves the halted flag clear, clears the
lowest-index pending bit in IF (priority VBlank 0, LCD-STAT 1, Timer
2, Serial 3, Joypad 4), pushes PC onto the stack (high byte at SP-1,
low byte at SP-2, SP decremented by 2), jumps to 0x0040 + index*8, and
advances the cycle counter by exactly **12** T-cycles (not 20). -/
theorem C3_amended_interrupt_dispatch_12_cycles
    (s : CPUState)
    (hstop : s.stopped = false) (hime : s.ime = true)
    (hsp1 : 0xC002 ≤ s.regs.sp) (hsp2 : s.regs.sp ≤ 0xDFFF) (hpc : s.regs.pc < 65536)
    (hpend : (s.bus.read 0xFF0F) &&& (s.bus.read 0xFFFF) &&& 0x1F ≠ 0) :
    (CPU.tick s).ime = false ∧
    (CPU.tick s).halted = false ∧
    (CPU.tick s).regs.pc =
      0x0040 + lowestSetIndex ((s.bus.read 0xFF0F) &&& (s.bus.read 0xFFFF) &&& 0x1F) * 8 ∧
    (CPU.tick s).cycles = s.cycles + 12 ∧
    (CPU.tick s).regs.sp = s.regs.sp - 2 ∧
    (CPU.tick s).bus.read (s.regs.sp - 1) = s.regs.pc >>> 8 ∧
    (CPU.tick s).bus.read (s.regs.sp - 2) = s.regs.pc &&& 0xFF ∧
    (CPU.tick s).bus.read 0xFF0F =
      (s.bus.read 0xFF0F) &&&
        (0xFF ^^^ (1 <<< lowestSetIndex ((s.bus.read 0xFF0F) &&& (s.bus.read 0xFFFF) &&& 0x1F))) := by
  have hhi : s.regs.pc >>> 8 < 256 := by
    rw [Nat.shiftRight_eq_div_pow]
    omega
  have hlo : s.regs.pc &&& 0xFF < 256 := Nat.lt_of_le_of_lt Nat.and_le_right (by norm_num)
  have hif0 : s.bus.read 0xFF0F < 256 := by
    unfold MemoryBus.read
    exact Nat.mod_lt _ (by norm_num)
  have main : ∀ bit vector : Nat,
      CPU.handleInterrupts s =
        (true, CPU.dispatchInterrupt { s with halted := false } (s.bus.read 0xFF0F) bit vector) →
      (CPU.tick s).ime = false ∧ (CPU.tick s).halted = false ∧
      (CPU.tick s).regs.pc = vector ∧ (CPU.tick s).cycles = s.cycles + 12 ∧
      (CPU.tick s).regs.sp = s.regs.sp - 2 ∧
      (CPU.tick s).bus.read (s.regs.sp - 1) = s.regs.pc >>> 8 ∧
      (CPU.tick s).bus.read (s.regs.sp - 2) = s.regs.pc &&& 0xFF ∧
      (CPU.tick s).bus.read 0xFF0F = (s.bus.read 0xFF0F) &&& (0xFF ^^^ bit) := by
    intro bit vector hH
    have hT : CPU.tick s =
        CPU.dispatchInterrupt { s with halted := false } (s.bus.read 0xFF0F) bit vector := by
      unfold CPU.tick
      rw [hstop]
      simp only [Bool.false_eq_true, if_false, hH, if_true]
      rw [hstop]
    rw [hT, CPU.dispatchInterrupt_eq { s with halted := false } (s.bus.read 0xFF0F) bit vector
          hsp1 hsp2]
    refine ⟨rfl, rfl, rfl, rfl, rfl, ?_, ?_, ?_⟩
    · rw [MemoryBus.read_wram _ _ (by omega) (by omega)]
      have hne : s.regs.sp - 1 - 0xC000 ≠ s.regs.sp - 2 - 0xC000 := by omega
      simp only [fupd]
      rw [if_neg hne, if_true]
      exact Nat.mod_eq_of_lt hhi
    · rw [MemoryBus.read_wram _ _ (by omega) (by omega)]
      simp only [fupd]
      rw [if_true]
      exact Nat.mod_eq_of_lt hlo
    · rw [MemoryBus.read_ff0f]
      simp only [fupd]
      rw [if_true]
      exact Nat.mod_eq_of_lt (Nat.lt_of_le_of_lt Nat.and_le_left hif0)
  by_cases h0 : (s.bus.read 0xFF0F) &&& (s.bus.read 0xFFFF) &&& 0x1F &&& 0x01 ≠ 0
  · have hH : CPU.handleInterrupts s =
        (true, CPU.dispatchInterrupt { s with halted := false } (s.bus.read 0xFF0F) 0x01 0x0040) := by
      simp only [CPU.handleInterrupts, CPU.mread, hime, Bool.not_true, Bool.false_eq_true,
        if_false, if_neg hpend, if_pos h0]
    have hi : lowestSetIndex ((s.bus.read 0xFF0F) &&& (s.bus.read 0xFFFF) &&& 0x1F) = 0 := by
      unfold lowestSetIndex
      rw [if_pos h0]
    obtain ⟨p1, p2, p3, p4, p5, p6, p7, p8⟩ := main 0x01 0x0040 hH
    exact ⟨p1, p2, by rw [hi]; simpa using p3, p4, p5, p6, p7, by rw [hi]; simpa using p8⟩
  · by_cases h1 : (s.bus.read 0xFF0F) &&& (s.bus.read 0xFFFF) &&& 0x1F &&& 0x02 ≠ 0
    · have hH : CPU.handleInterrupts s =
          (true, CPU.dispatchInterrupt { s with halted := false } (s.bus.read 0xFF0F) 0x02 0x0048) := by
        simp only [CPU.handleInterrupts, CPU.mread, hime, Bool.not_true, Bool.false_eq_true,
          if_false, if_neg hpend, if_neg h0, if_pos h1]
      have hi : lowestSetIndex ((s.bus.read 0xFF0F) &&& (s.bus.read 0xFFFF) &&& 0x1F) = 1 := by
        unfold lowestSetIndex
        rw [if_neg h0, if_pos h1]
      obtain ⟨p1, p2, p3, p4, p5, p6, p7, p8⟩ := main 0x02 0x0048 hH
      exact ⟨p1, p2, by rw [hi]; simpa using p3, p4, p5, p6, p7, by rw [hi]; simpa using p8⟩
    · by_cases h2 : (s.bus.read 0xFF0F) &&& (s.bus.read 0xFFFF) &&& 0x1F &&& 0x04 ≠ 0
      · have hH : CPU.handleInterrupts s =
            (true, CPU.dispatchInterrupt { s with halted := false } (s.bus.read 0xFF0F) 0x04 0x0050) := by
          simp only [CPU.handleInterrupts, CPU.mread, hime, Bool.not_true, Bool.false_eq_true,
            if_false, if_neg hpend, if_neg h0, if_neg h1, if_pos h2]
        have hi : lowestSetIndex ((s.bus.read 0xFF0F) &&& (s.bus.read 0xFFFF) &&& 0x1F) = 2 := by
          unfold lowestSetIndex
          rw [if_neg h0, if_neg h1, if_pos h2]
        obtain ⟨p1, p2, p3, p4, p5, p6, p7, p8⟩ := main 0x04 0x0050 hH
        exact ⟨p1, p2, by rw [hi]; simpa using p3, p4, p5, p6, p7, by rw [hi]; simpa using p8⟩
      · by_cases h3 : (s.bus.read 0xFF0F) &&& (s.bus.read 0xFFFF) &&& 0x1F &&& 0x08 ≠ 0
        · have hH : CPU.handleInterrupts s =
              (true, CPU.dispatchInterrupt { s with halted := false } (s.bus.read 0xFF0F) 0x08 0x0058) := by
            simp only [CPU.handleInterrupts, CPU.mread, hime, Bool.not_true, Bool.false_eq_true,
              if_false, if_neg hpend, if_neg h0, if_neg h1, if_neg h2, if_pos h3]
          have hi : lowestSetIndex ((s.bus.read 0xFF0F) &&& (s.bus.read 0xFFFF) &&& 0x1F) = 3 := by
            unfold lowestSetIndex
            rw [if_neg h0, if_neg h1, if_neg h2, if_pos h3]
          obtain ⟨p1, p2, p3, p4, p5, p6, p7, p8⟩ := main 0x08 0x0058 hH
          exact ⟨p1, p2, by rw [hi]; simpa using p3, p4, p5, p6, p7, by rw [hi]; simpa using p8⟩
        · by_cases h4 : (s.bus.read 0xFF0F) &&& (s.bus.read 0xFFFF) &&& 0x1F &&& 0x10 ≠ 0
          · have hH : CPU.handleInterrupts s =
                (true, CPU.dispatchInterrupt { s with halted := false } (s.bus.read 0xFF0F) 0x10 0x0060) := by
              simp only [CPU.handleInterrupts, CPU.mread, hime, Bool.not_true, Bool.false_eq_true,
                if_false, if_neg hpend, if_neg h0, if_neg h1, if_neg h2, if_neg h3, if_pos h4]
            have hi : lowestSetIndex ((s.bus.read 0xFF0F) &&& (s.bus.read 0xFFFF) &&& 0x1F) = 4 := by
              unfold lowestSetIndex
              rw [if_neg h0, if_neg h1, if_neg h2, if_neg h3, if_pos h4]
            obtain ⟨p1, p2, p3, p4, p5, p6, p7, p8⟩ := main 0x10 0x0060 hH
            exact ⟨p1, p2, by rw [hi]; simpa using p3, p4, p5, p6, p7, by rw [hi]; simpa using p8⟩
          · exfalso
            apply hpend
            have h0p := not_not.mp h0
            have h1p := not_not.mp h1
            have h2p := not_not.mp h2
            have h3p := not_not.mp h3
            have h4p := not_not.mp h4
            have hle : (s.bus.read 0xFF0F) &&& (s.bus.read 0xFFFF) &&& 0x1F ≤ 31 := Nat.and_le_right
            generalize hA : (s.bus.read 0xFF0F) &&& (s.bus.read 0xFFFF) &&& 0x1F = A at h0p h1p h2p h3p h4p hle ⊢
            interval_cases A <;> revert h0p h1p h2p h3p h4p <;> decide

/-- Witness for C3 amended: the hypotheses hold at `c3cpu` (IME set,
VBlank pending and enabled, SP = 0xD000) and dispatch there adds
exactly 12 cycles and jumps to 0x0040. -/
theorem C3_amended_witness :
    c3cpu.stopped = false ∧ c3cpu.ime = true ∧
    0xC002 ≤ c3cpu.regs.sp ∧ c3cpu.regs.sp ≤ 0xDFFF ∧ c3cpu.regs.pc < 65536 ∧
    (c3cpu.bus.read 0xFF0F) &&& (c3cpu.bus.read 0xFFFF) &&& 0x1F ≠ 0 ∧
    (CPU.tick c3cpu).cycles = c3cpu.cycles + 12 ∧
    (CPU.tick c3cpu).regs.pc =
      0x0040 + lowestSetIndex ((c3cpu.bus.read 0xFF0F) &&& (c3cpu.bus.read 0xFFFF) &&& 0x1F) * 8 :=
  ⟨by decide, by decide, by decide, by decide, by decide, by decide,
    ((C3_amended_interrupt_dispatch_12_cycles c3cpu (by decide) (by decide) (by decide)
      (by decide) (by decide) (by decide)).2.2.2.1),
    ((C3_amended_interrupt_dispatch_12_cycles c3cpu (by decide) (by decide) (by decide)
      (by decide) (by decide) (by decide)).2.2.1)⟩

/-! ## Cycle-counter preservation along the fetch/execute path (for C10) -/

/-- Projections distribute over `if` on states. -/
theorem CPUState.cycles_ite (c : Prop) [Decidable c] (a b : CPUState) :
    (if c then a else b).cycles = if c then a.cycles else b.cycles :=
  apply_ite _ c a b

/-- The cycle counter of the state half of a flag/state pair
distributes over `if`. -/
theorem CPUState.snd_cycles_ite (c : Prop) [Decidable c] (a b : Bool × CPUState) :
    ((if c then a else b).2).cycles = if c then a.2.cycles else b.2.cycles := by
  split <;> rfl

@[simp]
theorem CPU.setFlag_cycles (s : CPUState) (flag : Nat) (v : Bool) :
    (CPU.setFlag s flag v).cycles = s.cycles := by
  unfold CPU.setFlag
  split <;> rfl

@[simp]
theorem CPU.mwrite_cycles (s : CPUState) (addr v : Nat) :
    (CPU.mwrite s addr v).cycles = s.cycles := rfl

@[simp]
theorem CPU.mwrite16_cycles (s : CPUState) (addr v : Nat) :
    (CPU.mwrite16 s addr v).cycles = s.cycles := rfl

@[simp]
theorem CPU.setRegister8Bit_cycles (s : CPUState) (reg : RegType) (v : Nat) :
    (CPU.setRegister8Bit s reg v).cycles = s.cycles := by
  cases reg <;> rfl

@[simp]
theorem CPU.setRegister16Bit_cycles (s : CPUState) (reg : RegType) (v : Nat) :
    (CPU.setRegister16Bit s reg v).cycles = s.cycles := by
  cases reg <;> rfl

@[simp]
theorem CPU.incPC_cycles (s : CPUState) : (CPU.incPC s).cycles = s.cycles := rfl

@[simp]
theorem CPU.fetch_adress_cycles (s : CPUState) :
    (CPU.fetch_adress s).cycles = s.cycles := by
  cases h : s.current_instruction.addr_mode <;>
    simp [CPU.fetch_adress, CPU.incPC, h]

@[simp]
theorem CPU.executeLD_cycles (s : CPUState) : (CPU.executeLD s).cycles = s.cycles := by
  cases h : s.current_instruction.addr_mode <;>
    simp [CPU.executeLD, h, CPUState.cycles_ite]

@[simp]
theorem CPU.executeINC_cycles (s : CPUState) : (CPU.executeINC s).cycles = s.cycles := by
  simp [CPU.executeINC, CPUState.cycles_ite]

@[simp]
theorem CPU.executeDEC_cycles (s : CPUState) : (CPU.executeDEC s).cycles = s.cycles := by
  simp [CPU.executeDEC, CPUState.cycles_ite]

@[simp]
theorem CPU.executeADD_cycles (s : CPUState) : (CPU.executeADD s).cycles = s.cycles := by
  simp [CPU.executeADD, CPUState.cycles_ite]

@[simp]
theorem CPU.executeSUB_cycles (s : CPUState) : (CPU.executeSUB s).cycles = s.cycles := by
  simp [CPU.executeSUB]

@[simp]
theorem CPU.executeAND_cycles (s : CPUState) : (CPU.executeAND s).cycles = s.cycles := by
  simp [CPU.executeAND]

@[simp]
theorem CPU.executeOR_cycles (s : CPUState) : (CPU.executeOR s).cycles = s.cycles := by
  simp [CPU.executeOR]

@[simp]
theorem CPU.executeXOR_cycles (s : CPUState) : (CPU.executeXOR s).cycles = s.cycles := by
  simp [CPU.executeXOR]

@[simp]
theorem CPU.executeJP_cycles (s : CPUState) : (CPU.executeJP s).2.cycles = s.cycles := by
  unfold CPU.executeJP
  cases hc : CPU.condFromReg1 s <;> split_ifs <;> rfl

@[simp]
theorem CPU.executeJR_cycles (s : CPUState) : (CPU.executeJR s).2.cycles = s.cycles := by
  unfold CPU.executeJR
  cases hc : CPU.condFromReg1 s <;> split_ifs <;> rfl

@[simp]
theorem CPU.executeCALL_cycles (s : CPUState) : (CPU.executeCALL s).2.cycles = s.cycles := by
  unfold CPU.executeCALL
  cases hc : CPU.condFromReg1 s <;> split_ifs
  · rfl
  · simp only []
    rw [if_true, CPU.mwrite_cycles, CPU.mwrite_cycles]
  · simp only []
    rw [if_true, CPU.mwrite_cycles, CPU.mwrite_cycles]
  · simp only []
    rw [if_true, CPU.mwrite_cycles, CPU.mwrite_cycles]

@[simp]
theorem CPU.executeRET_cycles (s : CPUState) : (CPU.executeRET s).2.cycles = s.cycles := by
  unfold CPU.executeRET
  cases hc : CPU.condFromReg1 s <;> split_ifs <;> rfl

@[simp]
theorem CPU.executePUSH_cycles (s : CPUState) : (CPU.executePUSH s).cycles = s.cycles := by
  simp [CPU.executePUSH]

@[simp]
theorem CPU.executePOP_cycles (s : CPUState) : (CPU.executePOP s).cycles = s.cycles := by
  simp [CPU.executePOP, CPUState.cycles_ite]

@[simp]
theorem CPU.executeRLCA_cycles (s : CPUState) : (CPU.executeRLCA s).cycles = s.cycles := by
  simp [CPU.executeRLCA]

@[simp]
theorem CPU.executeRRCA_cycles (s : CPUState) : (CPU.executeRRCA s).cycles = s.cycles := by
  simp [CPU.executeRRCA]

@[simp]
theorem CPU.executeRLA_cycles (s : CPUState) : (CPU.executeRLA s).cycles = s.cycles := by
  simp [CPU.executeRLA]

@[simp]
theorem CPU.executeRRA_cycles (s : CPUState) : (CPU.executeRRA s).cycles = s.cycles := by
  simp [CPU.executeRRA]

@[simp]
theorem CPU.executeDAA_cycles (s : CPUState) : (CPU.executeDAA s).cycles = s.cycles := by
  simp [CPU.executeDAA, CPUState.cycles_ite]

@[simp]
theorem CPU.executeCPL_cycles (s : CPUState) : (CPU.executeCPL s).cycles = s.cycles := by
  simp [CPU.executeCPL]

@[simp]
theorem CPU.executeSCF_cycles (s : CPUState) : (CPU.executeSCF s).cycles = s.cycles := by
  simp [CPU.executeSCF]

@[simp]
theorem CPU.executeCCF_cycles (s : CPUState) : (CPU.executeCCF s).cycles = s.cycles := by
  simp [CPU.executeCCF]

@[simp]
theorem CPU.executeHALT_cycles (s : CPUState) : (CPU.executeHALT s).cycles = s.cycles := rfl

@[simp]
theorem CPU.executeADC_cycles (s : CPUState) : (CPU.executeADC s).cycles = s.cycles := by
  simp [CPU.executeADC]

@[simp]
theorem CPU.executeSBC_cycles (s : CPUState) : (CPU.executeSBC s).cycles = s.cycles := by
  simp [CPU.executeSBC]

@[simp]
theorem CPU.executeCP_cycles (s : CPUState) : (CPU.executeCP s).cycles = s.cycles := by
  simp [CPU.executeCP]

@[simp]
theorem CPU.executeRETI_cycles (s : CPUState) : (CPU.executeRETI s).cycles = s.cycles := by
  simp [CPU.executeRETI]

@[simp]
theorem CPU.executeLDH_cycles (s : CPUState) : (CPU.executeLDH s).cycles = s.cycles := by
  simp [CPU.executeLDH, CPUState.cycles_ite]

@[simp]
theorem CPU.executeDI_cycles (s : CPUState) : (CPU.executeDI s).cycles = s.cycles := rfl

@[simp]
theorem CPU.executeEI_cycles (s : CPUState) : (CPU.executeEI s).cycles = s.cycles := rfl

@[simp]
theorem CPU.executeRST_cycles (s : CPUState) : (CPU.executeRST s).cycles = s.cycles := by
  simp [CPU.executeRST]

@[simp]
theorem CPU.cbApply_cycles (s : CPUState) (op : Nat → Nat)
    (flg : CPUState → Nat → Nat → CPUState)
    (hflg : ∀ t v v2, (flg t v v2).cycles = t.cycles) :
    (CPU.cbApply s op flg).cycles = s.cycles := by
  unfold CPU.cbApply
  split <;> simp [hflg]

@[simp]
theorem CPU.executeRLC_cycles (s : CPUState) : (CPU.executeRLC s).cycles = s.cycles := by
  unfold CPU.executeRLC
  exact CPU.cbApply_cycles _ _ _ (fun t v v2 => by simp)

@[simp]
theorem CPU.executeRRC_cycles (s : CPUState) : (CPU.executeRRC s).cycles = s.cycles := by
  unfold CPU.executeRRC
  exact CPU.cbApply_cycles _ _ _ (fun t v v2 => by simp)

@[simp]
theorem CPU.executeRL_cycles (s : CPUState) : (CPU.executeRL s).cycles = s.cycles := by
  unfold CPU.executeRL
  exact CPU.cbApply_cycles _ _ _ (fun t v v2 => by simp)

@[simp]
theorem CPU.executeRR_cycles (s : CPUState) : (CPU.executeRR s).cycles = s.cycles := by
  unfold CPU.executeRR
  exact CPU.cbApply_cycles _ _ _ (fun t v v2 => by simp)

@[simp]
theorem CPU.executeSLA_cycles (s : CPUState) : (CPU.executeSLA s).cycles = s.cycles := by
  unfold CPU.executeSLA
  exact CPU.cbApply_cycles _ _ _ (fun t v v2 => by simp)

@[simp]
theorem CPU.executeSRA_cycles (s : CPUState) : (CPU.executeSRA s).cycles = s.cycles := by
  unfold CPU.executeSRA
  exact CPU.cbApply_cycles _ _ _ (fun t v v2 => by simp)

@[simp]
theorem CPU.executeSWAP_cycles (s : CPUState) : (CPU.executeSWAP s).cycles = s.cycles := by
  unfold CPU.executeSWAP
  exact CPU.cbApply_cycles _ _ _ (fun t v v2 => by simp)

@[simp]
theorem CPU.executeSRL_cycles (s : CPUState) : (CPU.executeSRL s).cycles = s.cycles := by
  unfold CPU.executeSRL
  exact CPU.cbApply_cycles _ _ _ (fun t v v2 => by simp)

@[simp]
theorem CPU.executeBIT_cycles (s : CPUState) : (CPU.executeBIT s).cycles = s.cycles := by
  simp [CPU.executeBIT]

@[simp]
theorem CPU.executeRES_cycles (s : CPUState) : (CPU.executeRES s).cycles = s.cycles := by
  unfold CPU.executeRES
  exact CPU.cbApply_cycles _ _ _ (fun t v v2 => rfl)

@[simp]
theorem CPU.executeSET_cycles (s : CPUState) : (CPU.executeSET s).cycles = s.cycles := by
  unfold CPU.executeSET
  exact CPU.cbApply_cycles _ _ _ (fun t v v2 => rfl)

/-- `CPU::execute` never touches the cycle counter: only
`pending_cycles` is set at the end. -/
theorem CPU.execute_cycles (s : CPUState) : (CPU.execute s).cycles = s.cycles := by
  cases h : s.current_instruction.ty <;> simp [CPU.execute, h]

/-- The dispatch block adds exactly 12 to the cycle counter. -/
theorem CPU.dispatchInterrupt_cycles (s : CPUState) (if_reg bit vector : Nat) :
    (CPU.dispatchInterrupt s if_reg bit vector).cycles = s.cycles + 12 := by
  simp [CPU.dispatchInterrupt]

/-- `CPU::handleInterrupts` adds 12 cycles when it dispatches and
leaves the counter unchanged otherwise. -/
theorem CPU.handleInterrupts_cycles (s : CPUState) :
    (CPU.handleInterrupts s).2.cycles =
      if (CPU.handleInterrupts s).1 then s.cycles + 12 else s.cycles := by
  by_cases hime : s.ime = true
  case neg =>
    have hf : s.ime = false := by
      cases h : s.ime
      · rfl
      · exact absurd h hime
    have h : CPU.handleInterrupts s = (false, s) := by
      simp only [CPU.handleInterrupts, hf, Bool.not_false, if_true]
    rw [h]
    simp
  case pos =>
    by_cases hA : (s.bus.read 0xFF0F) &&& (s.bus.read 0xFFFF) &&& 0x1F = 0
    · have h : CPU.handleInterrupts s = (false, s) := by
        simp only [CPU.handleInterrupts, CPU.mread, hime, Bool.not_true, Bool.false_eq_true,
          if_false, if_pos hA]
      rw [h]
      simp
    · by_cases h0 : (s.bus.read 0xFF0F) &&& (s.bus.read 0xFFFF) &&& 0x1F &&& 0x01 ≠ 0
      · have h : CPU.handleInterrupts s = (true,
            CPU.dispatchInterrupt { s with halted := false } (s.bus.read 0xFF0F) 0x01 0x0040) := by
          simp only [CPU.handleInterrupts, CPU.mread, hime, Bool.not_true, Bool.false_eq_true,
            if_false, if_neg hA, if_pos h0]
        rw [h]
        simp [CPU.dispatchInterrupt_cycles]
      · by_cases h1 : (s.bus.read 0xFF0F) &&& (s.bus.read 0xFFFF) &&& 0x1F &&& 0x02 ≠ 0
        · have h : CPU.handleInterrupts s = (true,
              CPU.dispatchInterrupt { s with halted := false } (s.bus.read 0xFF0F) 0x02 0x0048) := by
            simp only [CPU.handleInterrupts, CPU.mread, hime, Bool.not_true, Bool.false_eq_true,
              if_false, if_neg hA, if_neg h0, if_pos h1]
          rw [h]
          simp [CPU.dispatchInterrupt_cycles]
        · by_cases h2 : (s.bus.read 0xFF0F) &&& (s.bus.read 0xFFFF) &&& 0x1F &&& 0x04 ≠ 0
          · have h : CPU.handleInterrupts s = (true,
                CPU.dispatchInterrupt { s with halted := false } (s.bus.read 0xFF0F) 0x04 0x0050) := by
              simp only [CPU.handleInterrupts, CPU.mread, hime, Bool.not_true, Bool.false_eq_true,
                if_false, if_neg hA, if_neg h0, if_neg h1, if_pos h2]
            rw [h]
            simp [CPU.dispatchInterrupt_cycles]
          · by_cases h3 : (s.bus.read 0xFF0F) &&& (s.bus.read 0xFFFF) &&& 0x1F &&& 0x08 ≠ 0
            · have h : CPU.handleInterrupts s = (true,
                  CPU.dispatchInterrupt { s with halted := false } (s.bus.read 0xFF0F) 0x08 0x0058) := by
                simp only [CPU.handleInterrupts, CPU.mread, hime, Bool.not_true, Bool.false_eq_true,
                  if_false, if_neg hA, if_neg h0, if_neg h1, if_neg h2, if_pos h3]
              rw [h]
              simp [CPU.dispatchInterrupt_cycles]
            · by_cases h4 : (s.bus.read 0xFF0F) &&& (s.bus.read 0xFFFF) &&& 0x1F &&& 0x10 ≠ 0
              · have h : CPU.handleInterrupts s = (true,
                    CPU.dispatchInterrupt { s with halted := false } (s.bus.read 0xFF0F) 0x10 0x0060) := by
                  simp only [CPU.handleInterrupts, CPU.mread, hime, Bool.not_true, Bool.false_eq_true,
                    if_false, if_neg hA, if_neg h0, if_neg h1, if_neg h2, if_neg h3, if_pos h4]
                rw [h]
                simp [CPU.dispatchInterrupt_cycles]
              · exfalso
                apply hA
                have h0p := not_not.mp h0
                have h1p := not_not.mp h1
                have h2p := not_not.mp h2
                have h3p := not_not.mp h3
                have h4p := not_not.mp h4
                have hle : (s.bus.read 0xFF0F) &&& (s.bus.read 0xFFFF) &&& 0x1F ≤ 31 :=
                  Nat.and_le_right
                generalize hB : (s.bus.read 0xFF0F) &&& (s.bus.read 0xFFFF) &&& 0x1F = A at h0p h1p h2p h3p h4p hle ⊢
                interval_cases A <;> revert h0p h1p h2p h3p h4p <;> decide

/-- C10: every call to `CPU::tick` strictly increases the cycle
counter — by 1 on the stopped, halted, pending-consumption and
fetch/execute paths and by 12 when an interrupt is dispatched; it
never stays the same and never decreases. -/
theorem C10_tick_strictly_increases_cycles (s : CPUState) :
    s.cycles < (CPU.tick s).cycles := by
  have hH := CPU.handleInterrupts_cycles s
  unfold CPU.tick
  by_cases hstop : s.stopped
  · simp [hstop]
  · simp only [hstop, Bool.false_eq_true, if_false]
    by_cases hd : (CPU.handleInterrupts s).1
    · simp only [hd, if_true]
      rw [hd] at hH
      simp at hH
      omega
    · simp only [hd, Bool.false_eq_true, if_false]
      rw [if_neg (by simp [hd])] at hH
      by_cases hh : (CPU.handleInterrupts s).2.halted
      · simp only [hh, if_true]
        omega
      · simp only [hh, Bool.false_eq_true, if_false]
        by_cases hp : (CPU.handleInterrupts s).2.pending_cycles = 0
        · simp only [hp, if_true]
          simp only [CPU.execute_cycles, CPU.fetch_adress_cycles]
          by_cases hb : (CPU.handleInterrupts s).2.halt_bug_active
          · simp [hb, CPU.execute_cycles]
            omega
          · simp [hb, CPU.execute_cycles, CPU.incPC]
            omega
        · simp only [hp, if_false]
          omega

end GB
